import Mathlib

/-!
# Verification of the TikTok order-export orchestration controller

A shallow embedding of the background service worker's orchestration core
(`src/unnamed/part_002`, first document, v3.0.8): the session state record,
the per-order retry/backoff policy, dedup-on-start skipping, page paging,
watchdog stall recovery, checkpoint persistence and resume.

Modelling conventions, matching the JavaScript source:
* The mutable module-global `state` object becomes the `State` structure;
  `chrome.storage.local` becomes the `Storage` structure; a `World` pairs them.
  Storage reads/writes that the handlers `await` inline are applied inline.
* Fields the source leaves `undefined` on some code path (e.g. `maxOrders`,
  `startPage`/`endPage`/`currentPage` after a resume) are `Option` types, and
  JavaScript's falsy-default `x || d` idiom is `jsOrN` / `jsOrQ`; comparisons
  with possibly-`undefined` numbers (`undefined < n` is `false`) are `jsLtOpt`.
* Side effects other than storage (tab navigation/reload, `setTimeout`
  scheduling, watchdog arm/disarm, status broadcasts, the extraction-request
  message) are returned as a list of `Effect` values in source order.
  Logging (`log`, `debugLog`) has no effect on control flow and is omitted.
* Each call to `Math.random()` is one field of a `RandStream` record,
  a uniform draw in `[0, 1)` passed in explicitly; delays are rationals.
* `state.retryCount` (a JS object used as a string-keyed map) is an
  association list updated in place (`setRetry`) as JS property writes are.
* Order records in `collectedData` / `exportedOrders` are abbreviated to
  their `order_id` key: no other record field influences the control flow.
* The `collectCalled` latch and the `chrome.tabs.onUpdated` listener only
  select when `collectOrderIds` / `processCurrentOrder` fire; the events of
  the trace model (`Event`) stand for those firings.
* In the source the non-retryable (`skipRetry`) branch of
  `handleOrderDataExtracted` calls `scheduleNextOrder()`, an identifier that
  is defined nowhere in the file; this call is modelled as the effect
  `Effect.jsError "scheduleNextOrder"`.
-/

set_option maxRecDepth 8000

namespace OrderExport

/-- `const MAX_RETRIES = 3;` -/
def MAX_RETRIES : Nat := 3

/-- `state.phase` string constants. -/
inductive Phase
  | idle
  | collecting
  | processing
  | done
  | paused
deriving DecidableEq, Repr

/-- Navigation targets issued through `chrome.tabs.create` / `chrome.tabs.update`:
the order-list page (`sorted = true` for the URL carrying `selected_sort=6`)
and an order detail page for a given order id. -/
inductive NavTarget
  | sellerHome (sorted : Bool)
  | orderDetail (orderId : String)
deriving DecidableEq, Repr

/-- Non-storage side effects, in source order.  `navigate delayMs t` stands for
a `chrome.tabs.create`/`chrome.tabs.update` issued after a `setTimeout` of
`delayMs` (0 for an immediate call). -/
inductive Effect
  | navigate (delayMs : ℚ) (target : NavTarget)
  | reloadTab
  | closeStaleTabs
  | requestCollect (pageNumber : Nat) (dateFilter : Option String)
  | requestExtract (orderId : String)
  | startWatchdog (orderId : String)
  | stopWatchdog
  | scheduleRetry (delayMs : ℚ)
  | scheduleNext (delayMs : ℚ)
  | broadcast
  | notifyComplete
  | jsError (name : String)
deriving DecidableEq, Repr

/-- The object written by `saveSessionState` under the `sessionState` key. -/
structure Checkpoint where
  orderIds : List String
  currentOrderIndex : Nat
  maxOrders : Option Nat
  processed : Nat
  success : Nat
  failed : Nat
  skipped : Nat
  totalAmount : ℚ
  retryCount : List (String × Nat)
  retried : Nat
  pausedByHuman : Bool
deriving DecidableEq, Repr

/-- The module-global `state` object.  Fields that some reassignment of
`state` omits (leaving them `undefined`) are `Option`-typed; the Boolean
flags `isPaused` / `pausedByHuman` are kept as `Bool` because `undefined`
is falsy in every use the source makes of them. -/
structure State where
  isRunning : Bool
  shouldStop : Bool
  isPaused : Bool
  pausedByHuman : Bool
  currentTabId : Option Nat
  maxOrders : Option Nat
  startPage : Option Nat
  endPage : Option Nat
  currentPage : Option Nat
  delayMinMs : ℚ
  delayMaxMs : ℚ
  orderIds : List String
  collectedData : List String
  existingOrderIds : List String
  currentOrderIndex : Nat
  processed : Nat
  success : Nat
  failed : Nat
  skipped : Nat
  totalAmount : ℚ
  isProcessingOrder : Bool
  phase : Phase
  retryCount : List (String × Nat)
  retried : Nat
  dateFilter : Option String
deriving DecidableEq, Repr

/-- The slice of `chrome.storage.local` the controller uses. -/
structure Storage where
  sessionState : Option Checkpoint
  exportedOrders : List String
deriving DecidableEq, Repr

/-- In-memory state plus persistent storage. -/
structure World where
  state : State
  storage : Storage
deriving DecidableEq, Repr

/-- JavaScript `v || d` on a possibly-undefined number (0 is falsy). -/
def jsOrN : Option Nat → Nat → Nat
  | none, d => d
  | some v, d => if v = 0 then d else v

/-- JavaScript `v || d` on a possibly-undefined float (0 is falsy). -/
def jsOrQ : Option ℚ → ℚ → ℚ
  | none, d => d
  | some v, d => if v = 0 then d else v

/-- JavaScript `a < b` on possibly-undefined numbers (`undefined < b` is false). -/
def jsLtOpt : Option Nat → Option Nat → Bool
  | some a, some b => decide (a < b)
  | _, _ => false

/-- JavaScript `a < b` where only the right side may be undefined. -/
def jsLtNO (a : Nat) : Option Nat → Bool
  | some b => decide (a < b)
  | none => false

/-- `state.retryCount[orderId] || 0`. -/
def lookupRetry (m : List (String × Nat)) (k : String) : Nat :=
  match m.find? (fun p => p.1 = k) with
  | some p => p.2
  | none => 0

/-- `state.retryCount[orderId] = v`: JS property write — update the existing
key in place, or append a new key. -/
def setRetry (m : List (String × Nat)) (k : String) (v : Nat) : List (String × Nat) :=
  if m.any (fun p => p.1 = k) then
    m.map (fun p => if p.1 = k then (k, v) else p)
  else
    m ++ [(k, v)]

/-- The initial module-global `state` literal at the top of the file. -/
def initState : State where
  isRunning := false
  shouldStop := false
  isPaused := false
  pausedByHuman := false
  currentTabId := none
  maxOrders := some 100
  startPage := none
  endPage := none
  currentPage := none
  delayMinMs := 2000
  delayMaxMs := 7000
  orderIds := []
  collectedData := []
  existingOrderIds := []
  currentOrderIndex := 0
  processed := 0
  success := 0
  failed := 0
  skipped := 0
  totalAmount := 0
  isProcessingOrder := false
  phase := Phase.idle
  retryCount := []
  retried := 0
  dateFilter := none

/-- Fresh storage: no checkpoint, no exported orders. -/
def initStorage : Storage where
  sessionState := none
  exportedOrders := []

/-- The world at service-worker start. -/
def initWorld : World where
  state := initState
  storage := initStorage

/-- The checkpoint object `saveSessionState` builds from the current state. -/
def mkCheckpoint (s : State) : Checkpoint where
  orderIds := s.orderIds
  currentOrderIndex := s.currentOrderIndex
  maxOrders := s.maxOrders
  processed := s.processed
  success := s.success
  failed := s.failed
  skipped := s.skipped
  totalAmount := s.totalAmount
  retryCount := s.retryCount
  retried := s.retried
  pausedByHuman := s.pausedByHuman

/-- `saveSessionState()`: persists a snapshot, but only when
`state.orderIds.length > 0`.  Touches storage only. -/
def saveSessionState (w : World) : World :=
  { w with storage :=
      if w.state.orderIds.length > 0 then
        { w.storage with sessionState := some (mkCheckpoint w.state) }
      else
        w.storage }

/-- `clearSessionState()`: `chrome.storage.local.remove(['sessionState'])`
(removing an absent key is a no-op, not an error). -/
def clearSessionState (w : World) : World :=
  { w with storage := { w.storage with sessionState := none } }

/-- `saveToStorage()`: merge `collectedData` into the persisted
`exportedOrders` (dedup by id), refresh `existingOrderIds`, clear
`collectedData`.  Early-returns (leaving everything as is) when there is
nothing new. -/
def saveToStorage (w : World) : World :=
  if w.state.collectedData.length = 0 then w
  else
    let existingOrders := w.storage.exportedOrders
    let newOrders := w.state.collectedData.filter (fun o => ¬ existingOrders.contains o)
    if newOrders.length = 0 then w
    else
      let allOrders := existingOrders ++ newOrders
      { state := { w.state with existingOrderIds := allOrders, collectedData := [] }
        storage := { w.storage with exportedOrders := allOrders } }

/-- One `Math.random()` call per field, each a uniform draw in `[0, 1)`. -/
structure RandStream where
  breakIntervalDraw : ℚ
  breakDurationDraw : ℚ
  baseDraw : ℚ
  thinkCheckDraw : ℚ
  thinkAmtDraw : ℚ
  distCheckDraw : ℚ
  distAmtDraw : ℚ
deriving DecidableEq, Repr

/-- `getRandomDelay()`: base uniform draw from `[delayMinMs, delayMaxMs]`,
then a 15%-chance thinking pause (+2–5 s), otherwise a 5%-chance
distraction pause (+8–15 s). -/
def getRandomDelay (s : State) (r : RandStream) : ℚ :=
  let baseDelay := s.delayMinMs + r.baseDraw * (s.delayMaxMs - s.delayMinMs)
  if r.thinkCheckDraw < 15/100 then
    baseDelay + (2000 + r.thinkAmtDraw * 3000)
  else if r.distCheckDraw < 5/100 then
    baseDelay + (8000 + r.distAmtDraw * 7000)
  else
    baseDelay

/-- `checkRestBreak()`: every `20 + floor(rand*6)` orders (counting
`success + failed`), a 10–20 s break; otherwise 0. -/
def checkRestBreak (s : State) (r : RandStream) : ℚ :=
  let ordersProcessed := s.success + s.failed
  let breakInterval := 20 + (Int.floor (r.breakIntervalDraw * 6)).toNat
  if 0 < ordersProcessed ∧ ordersProcessed % breakInterval = 0 then
    10000 + r.breakDurationDraw * 10000
  else
    0

/-- The result payload of an `EXTRACT_ORDER_DATA` round trip
(`message.data` in `ORDER_DATA_EXTRACTED`).  Only the fields that steer
control flow, plus the monetary total, are modelled. -/
structure ExtractData where
  hasData : Bool
  isMasked : Bool
  skipRetry : Bool
  total_amount : ℚ
deriving DecidableEq, Repr

/-- `handleOrderFailed(orderId, reason)`: retry with increasing backoff while
the per-order attempt count is below `MAX_RETRIES`; otherwise count the order
failed and advance the cursor. -/
def handleOrderFailed (w : World) (orderId : String) : World × List Effect :=
  let currentRetries := lookupRetry w.state.retryCount orderId
  if currentRetries < MAX_RETRIES then
    let s := { w.state with
      retryCount := setRetry w.state.retryCount orderId (currentRetries + 1)
      isProcessingOrder := false }
    let w := saveSessionState { w with state := s }
    (w, [Effect.scheduleRetry (3000 + (currentRetries : ℚ) * 2000)])
  else
    let s := { w.state with
      failed := w.state.failed + 1
      processed := w.state.processed + 1
      currentOrderIndex := w.state.currentOrderIndex + 1
      isProcessingOrder := false }
    let w := saveSessionState { w with state := s }
    (w, [Effect.broadcast, Effect.scheduleNext 1000])

/-- The `while` loop at the top of `processNextOrder`: orders already in
`existingOrderIds` are counted skipped, the cursor advances, a checkpoint is
written, and the loop continues; it stops at the first unexported order or at
the end of the list. -/
def skipExistingLoop (w : World) (effs : List Effect) : World × List Effect :=
  if h : w.state.currentOrderIndex < w.state.orderIds.length then
    if w.state.orderIds.get ⟨w.state.currentOrderIndex, h⟩ ∈ w.state.existingOrderIds then
      skipExistingLoop
        (saveSessionState
          { w with state := { w.state with
              skipped := w.state.skipped + 1
              currentOrderIndex := w.state.currentOrderIndex + 1 } })
        (effs ++ [Effect.broadcast])
    else
      (w, effs)
  else
    (w, effs)
termination_by w.state.orderIds.length - w.state.currentOrderIndex
decreasing_by
  simp only [saveSessionState]
  omega

/-- `processNextOrder()`: skip already-exported orders, then either finish the
page (advance to the next page or complete the run) or navigate to the order
at the cursor with the watchdog armed.  `navOk` is whether the
`chrome.tabs.update` call succeeds; on rejection the order goes through
`handleOrderFailed`. -/
def processNextOrder (w : World) (navOk : Bool) : World × List Effect :=
  if w.state.shouldStop || !w.state.isRunning then (w, [])
  else
    let r := skipExistingLoop w []
    let w := r.1
    let effs := r.2
    if w.state.orderIds.length ≤ w.state.currentOrderIndex then
      let w := saveToStorage w
      if jsLtOpt w.state.currentPage w.state.endPage then
        let s := { w.state with
          currentPage := w.state.currentPage.map (· + 1)
          orderIds := []
          currentOrderIndex := 0
          phase := Phase.collecting }
        ({ w with state := s },
          effs ++ [Effect.stopWatchdog, Effect.navigate 1500 (NavTarget.sellerHome true)])
      else
        let s := { w.state with isRunning := false, phase := Phase.done }
        let w := clearSessionState { w with state := s }
        (w, effs ++ [Effect.stopWatchdog, Effect.broadcast, Effect.notifyComplete])
    else
      let orderId := w.state.orderIds.getD w.state.currentOrderIndex ""
      if navOk then
        (w, effs ++ [Effect.broadcast, Effect.startWatchdog orderId,
          Effect.navigate 0 (NavTarget.orderDetail orderId)])
      else
        let r' := handleOrderFailed w orderId
        (r'.1, effs ++ [Effect.broadcast, Effect.startWatchdog orderId,
          Effect.stopWatchdog] ++ r'.2)

/-- `processCurrentOrder()` (fires on detail-page load-complete): guarded by
the in-flight flag; dispatches the extraction request.  `sendOk` is whether
`chrome.tabs.sendMessage` succeeds. -/
def processCurrentOrder (w : World) (sendOk : Bool) : World × List Effect :=
  if w.state.shouldStop || !w.state.isRunning then (w, [])
  else if w.state.orderIds.length ≤ w.state.currentOrderIndex then (w, [])
  else if w.state.isProcessingOrder then (w, [])
  else
    let s := { w.state with isProcessingOrder := true }
    let w := { w with state := s }
    let orderId := w.state.orderIds.getD w.state.currentOrderIndex ""
    if sendOk then
      (w, [Effect.requestExtract orderId])
    else
      handleOrderFailed w orderId

/-- `retryCurrentOrder()`: re-navigate to the same order's detail page
(no watchdog re-arm, no state change on success). -/
def retryCurrentOrder (w : World) (navOk : Bool) : World × List Effect :=
  if w.state.shouldStop || !w.state.isRunning then (w, [])
  else if w.state.orderIds.length ≤ w.state.currentOrderIndex then (w, [])
  else
    let orderId := w.state.orderIds.getD w.state.currentOrderIndex ""
    if navOk then
      (w, [Effect.broadcast, Effect.navigate 0 (NavTarget.orderDetail orderId)])
    else
      handleOrderFailed w orderId

/-- `handleOrderDataExtracted(data)`: classify the delegate's response as
success / non-retryable block / retryable failure / terminal failure, update
counters and retry map, persist, and schedule what follows.  `rnd` feeds
`checkRestBreak` and `getRandomDelay`. -/
def handleOrderDataExtracted (w : World) (data : ExtractData) (rnd : RandStream) :
    World × List Effect :=
  if !w.state.isRunning then (w, [Effect.stopWatchdog])
  else
    let orderId := w.state.orderIds.getD w.state.currentOrderIndex ""
    let currentRetries := lookupRetry w.state.retryCount orderId
    if data.hasData && !data.isMasked then
      let s := { w.state with
        retried := if currentRetries > 0 then w.state.retried + 1 else w.state.retried
        success := w.state.success + 1
        collectedData := w.state.collectedData ++ [orderId]
        totalAmount := w.state.totalAmount + data.total_amount }
      let w := saveToStorage { w with state := s }
      let s₂ := { w.state with
        processed := w.state.processed + 1
        currentOrderIndex := w.state.currentOrderIndex + 1
        isProcessingOrder := false }
      let w := saveSessionState { w with state := s₂ }
      let restBreak := checkRestBreak w.state rnd
      if restBreak > 0 then
        (w, [Effect.stopWatchdog, Effect.broadcast, Effect.scheduleNext restBreak])
      else
        (w, [Effect.stopWatchdog, Effect.broadcast,
          Effect.scheduleNext (getRandomDelay w.state rnd)])
    else if data.skipRetry then
      let s := { w.state with
        failed := w.state.failed + 1
        processed := w.state.processed + 1
        currentOrderIndex := w.state.currentOrderIndex + 1
        isProcessingOrder := false }
      let w := saveSessionState { w with state := s }
      (w, [Effect.stopWatchdog, Effect.broadcast, Effect.jsError "scheduleNextOrder"])
    else if currentRetries < MAX_RETRIES then
      let s := { w.state with
        retryCount := setRetry w.state.retryCount orderId (currentRetries + 1)
        isProcessingOrder := false }
      let w := saveSessionState { w with state := s }
      (w, [Effect.stopWatchdog, Effect.scheduleRetry (3000 + (currentRetries : ℚ) * 2000)])
    else
      let s := { w.state with
        failed := w.state.failed + 1
        processed := w.state.processed + 1
        currentOrderIndex := w.state.currentOrderIndex + 1
        isProcessingOrder := false }
      let w := saveSessionState { w with state := s }
      let restBreak := checkRestBreak w.state rnd
      if restBreak > 0 then
        (w, [Effect.stopWatchdog, Effect.broadcast, Effect.scheduleNext restBreak])
      else
        (w, [Effect.stopWatchdog, Effect.broadcast,
          Effect.scheduleNext (getRandomDelay w.state rnd)])

/-- The `START_EXPORT` message payload. -/
structure StartMsg where
  startPage : Option Nat
  endPage : Option Nat
  delayMinMs : Option ℚ
  delayMaxMs : Option ℚ
  dateFilter : Option String
deriving DecidableEq, Repr

/-- The `RESUME_EXPORT` message payload. -/
structure ResumeMsg where
  delayMinMs : Option ℚ
  delayMaxMs : Option ℚ
deriving DecidableEq, Repr

/-- `handleStart(message)`: refuse while a run is active, otherwise build a
fresh state (reading `exportedOrders` for dedup), clear any previous
checkpoint, and open the seller-center tab.  `tabOk`/`tabId` stand for the
outcome of `chrome.tabs.create`. -/
def handleStart (w : World) (msg : StartMsg) (tabOk : Bool) (tabId : Nat) :
    World × List Effect × Option String :=
  if w.state.isRunning then (w, [], some "Already running")
  else
    let existingOrderIds := w.storage.exportedOrders
    let s : State := {
      isRunning := true
      shouldStop := false
      isPaused := false
      pausedByHuman := false
      currentTabId := none
      maxOrders := none
      startPage := some (jsOrN msg.startPage 1)
      endPage := some (jsOrN msg.endPage 1)
      currentPage := some (jsOrN msg.startPage 1)
      delayMinMs := jsOrQ msg.delayMinMs 2000
      delayMaxMs := jsOrQ msg.delayMaxMs 6000
      orderIds := []
      collectedData := []
      existingOrderIds := existingOrderIds
      currentOrderIndex := 0
      processed := 0
      success := 0
      failed := 0
      skipped := 0
      totalAmount := 0
      isProcessingOrder := false
      phase := Phase.collecting
      retryCount := []
      retried := 0
      dateFilter := msg.dateFilter }
    let w := clearSessionState { w with state := s }
    if tabOk then
      ({ w with state := { w.state with currentTabId := some tabId } },
        [Effect.broadcast, Effect.navigate 0 (NavTarget.sellerHome true)], none)
    else
      ({ w with state := { w.state with isRunning := false } },
        [Effect.broadcast], some "tab create failed")

/-- `handleResume(message)`: refuse while a run is active, refuse without a
usable checkpoint, otherwise rehydrate state from the checkpoint (the
`session.x || default` reads), close stale tabs, open a fresh one, and
schedule `processNextOrder` after 4 s. -/
def handleResume (w : World) (msg : ResumeMsg) (tabOk : Bool) (tabId : Nat) :
    World × List Effect × Option String :=
  if w.state.isRunning then (w, [], some "Already running")
  else
    match w.storage.sessionState with
    | none => (w, [], some "No previous session found")
    | some session =>
      if session.orderIds.length = 0 then (w, [], some "No previous session found")
      else
        let existingOrderIds := w.storage.exportedOrders
        let s : State := {
          isRunning := true
          shouldStop := false
          isPaused := false
          pausedByHuman := false
          currentTabId := none
          maxOrders := some (jsOrN session.maxOrders 100)
          startPage := none
          endPage := none
          currentPage := none
          delayMinMs := jsOrQ msg.delayMinMs 2000
          delayMaxMs := jsOrQ msg.delayMaxMs 6000
          orderIds := session.orderIds
          collectedData := []
          existingOrderIds := existingOrderIds
          currentOrderIndex := jsOrN (some session.currentOrderIndex) 0
          processed := jsOrN (some session.processed) 0
          success := jsOrN (some session.success) 0
          failed := jsOrN (some session.failed) 0
          skipped := jsOrN (some session.skipped) 0
          totalAmount := jsOrQ (some session.totalAmount) 0
          isProcessingOrder := false
          phase := Phase.processing
          retryCount := session.retryCount
          retried := jsOrN (some session.retried) 0
          dateFilter := none }
        if tabOk then
          ({ state := { s with currentTabId := some tabId }, storage := w.storage },
            [Effect.closeStaleTabs, Effect.navigate 0 (NavTarget.sellerHome false),
              Effect.scheduleNext 4000, Effect.broadcast], none)
        else
          ({ state := { s with isRunning := false }, storage := w.storage },
            [Effect.closeStaleTabs, Effect.broadcast], some "tab create failed")

/-- `handlePause()`: flag the pause, stop the watchdog, checkpoint. -/
def handlePause (w : World) : World × List Effect :=
  let s := { w.state with isPaused := true, pausedByHuman := true, isRunning := false }
  let w := saveSessionState { w with state := s }
  (w, [Effect.stopWatchdog, Effect.broadcast])

/-- `handleResumePaused()`: clear the pause flags and call
`processNextOrder` directly. -/
def handleResumePaused (w : World) (navOk : Bool) : World × List Effect × Option String :=
  if !w.state.isPaused then (w, [], some "Not paused")
  else
    let s := { w.state with isPaused := false, pausedByHuman := false, isRunning := true }
    let r := processNextOrder { w with state := s } navOk
    (r.1, Effect.broadcast :: r.2, none)

/-- `handleStop()`: force stop — flags down, watchdog stopped, checkpoint
cleared.  Never reports an error and never touches `state.phase`. -/
def handleStop (w : World) : World × List Effect :=
  let s := { w.state with
    shouldStop := true
    isRunning := false
    isPaused := false
    pausedByHuman := false }
  let w := clearSessionState { w with state := s }
  (w, [Effect.stopWatchdog, Effect.broadcast])

/-- `handleOrderIdsCollected(orderIds, actualMaxPages)`: store the fresh work
list, clamp `endPage` down to a positive `actualMaxPages`, then either recurse
to the next page / finish (zero ids) or reset the cursor and start processing.
`navOk` is threaded into the inline `processNextOrder` call. -/
def handleOrderIdsCollected (w : World) (orderIds : List String)
    (actualMaxPages : Option Nat) (navOk : Bool) : World × List Effect :=
  if !w.state.isRunning || w.state.shouldStop then (w, [])
  else
    let s₀ := { w.state with orderIds := orderIds }
    let s₁ :=
      match actualMaxPages with
      | some amp =>
        if 0 < amp then
          if jsLtNO amp s₀.endPage then { s₀ with endPage := some amp } else s₀
        else s₀
      | none => s₀
    if orderIds.length = 0 then
      if jsLtOpt s₁.currentPage s₁.endPage then
        let s₂ := { s₁ with
          currentPage := s₁.currentPage.map (· + 1)
          phase := Phase.collecting }
        ({ w with state := s₂ }, [Effect.navigate 1000 (NavTarget.sellerHome true)])
      else
        let s₂ := { s₁ with isRunning := false, phase := Phase.done }
        let w := clearSessionState { w with state := s₂ }
        (w, [Effect.broadcast, Effect.notifyComplete])
    else
      let w := saveSessionState { w with state := s₁ }
      let s₂ := { w.state with phase := Phase.processing, currentOrderIndex := 0 }
      let r := processNextOrder { w with state := s₂ } navOk
      (r.1, Effect.broadcast :: r.2)

/-- The `setTimeout` body armed by `startOrderWatchdog`: on firing, drop the
in-flight flag and reload the tab; if the reload throws (`reloadOk = false`),
fall through to `handleOrderFailed`. -/
def watchdogFire (w : World) (orderId : String) (reloadOk : Bool) : World × List Effect :=
  if !w.state.isRunning || w.state.shouldStop then (w, [])
  else
    let w := { w with state := { w.state with isProcessingOrder := false } }
    match w.state.currentTabId with
    | some _ =>
      if reloadOk then (w, [Effect.reloadTab])
      else handleOrderFailed w orderId
    | none => (w, [])

/-- The asynchronous events that drive the controller, each applying one
handler (or one scheduled callback) atomically, as the single-threaded
service worker does. -/
inductive Event
  | start (msg : StartMsg) (tabOk : Bool) (tabId : Nat)
  | resume (msg : ResumeMsg) (tabOk : Bool) (tabId : Nat)
  | pause
  | resumePaused (navOk : Bool)
  | stop
  | idsCollected (orderIds : List String) (actualMaxPages : Option Nat) (navOk : Bool)
  | extracted (data : ExtractData) (rnd : RandStream)
  | orderFailed (orderId : String)
  | procNext (navOk : Bool)
  | procCurrent (sendOk : Bool)
  | retryNow (navOk : Bool)
  | watchdog (orderId : String) (reloadOk : Bool)

/-- Apply one event's handler, keeping only the state/storage outcome. -/
def applyEvent (w : World) (e : Event) : World :=
  match e with
  | Event.start msg tabOk tabId => (handleStart w msg tabOk tabId).1
  | Event.resume msg tabOk tabId => (handleResume w msg tabOk tabId).1
  | Event.pause => (handlePause w).1
  | Event.resumePaused navOk => (handleResumePaused w navOk).1
  | Event.stop => (handleStop w).1
  | Event.idsCollected ids amp navOk => (handleOrderIdsCollected w ids amp navOk).1
  | Event.extracted data rnd => (handleOrderDataExtracted w data rnd).1
  | Event.orderFailed oid => (handleOrderFailed w oid).1
  | Event.procNext navOk => (processNextOrder w navOk).1
  | Event.procCurrent sendOk => (processCurrentOrder w sendOk).1
  | Event.retryNow navOk => (retryCurrentOrder w navOk).1
  | Event.watchdog oid reloadOk => (watchdogFire w oid reloadOk).1

/-- A run is the left fold of its event history. -/
def applyEvents (w : World) (es : List Event) : World :=
  es.foldl applyEvent w

/-! ## Sample worlds used as concrete inputs -/

/-- A mid-run world: processing one order `"A"`, nothing yet counted. -/
def sampleRunning : World where
  state := { initState with
    isRunning := true
    phase := Phase.processing
    orderIds := ["A"]
    currentTabId := some 1 }
  storage := initStorage

/-- A collecting-phase world on the final allowed page (page 2 of 1–2),
with a checkpoint still present. -/
def finalPageWorld : World where
  state := { initState with
    isRunning := true
    phase := Phase.collecting
    startPage := some 1
    currentPage := some 2
    endPage := some 2
    currentTabId := some 1 }
  storage := { sessionState := some (mkCheckpoint initState), exportedOrders := [] }

/-- A collecting-phase world on page 1 of a requested range 1–5. -/
def wideRangeWorld : World where
  state := { initState with
    isRunning := true
    phase := Phase.collecting
    startPage := some 1
    currentPage := some 1
    endPage := some 5
    currentTabId := some 1 }
  storage := initStorage

/-- A state as it stands at a checkpoint write: two orders, cursor on the
second, one success, one failure, three skips, one retry recovery. -/
def resumeSavedState : State :=
  { initState with
    isRunning := true
    phase := Phase.processing
    orderIds := ["A", "B"]
    currentOrderIndex := 1
    processed := 2
    success := 1
    failed := 1
    skipped := 3
    retried := 1
    totalAmount := 5
    retryCount := [("B", 2)] }

/-! ## Small laws of the JavaScript-idiom helpers -/

/-- `n || 0` reads back `n` for a defined number. -/
theorem jsOrN_some_zero (n : Nat) : jsOrN (some n) 0 = n := by
  by_cases h : n = 0 <;> simp [jsOrN, h]

/-- `x || 0` reads back `x` for a defined float. -/
theorem jsOrQ_some_zero (x : ℚ) : jsOrQ (some x) 0 = x := by
  by_cases h : x = 0 <;> simp [jsOrQ, h]

/-- `saveSessionState` writes storage only. -/
theorem saveSessionState_state (w : World) : (saveSessionState w).state = w.state := rfl

/-- `handleOrderFailed` never touches the run flags, the paging fields, the
work list, the dedup set, or the delay configuration. -/
theorem handleOrderFailed_preserves (w : World) (oid : String) :
    (handleOrderFailed w oid).1.state.isRunning = w.state.isRunning ∧
    (handleOrderFailed w oid).1.state.shouldStop = w.state.shouldStop ∧
    (handleOrderFailed w oid).1.state.phase = w.state.phase ∧
    (handleOrderFailed w oid).1.state.endPage = w.state.endPage ∧
    (handleOrderFailed w oid).1.state.currentPage = w.state.currentPage ∧
    (handleOrderFailed w oid).1.state.orderIds = w.state.orderIds ∧
    (handleOrderFailed w oid).1.state.existingOrderIds = w.state.existingOrderIds ∧
    (handleOrderFailed w oid).1.state.skipped = w.state.skipped := by
  by_cases h : lookupRetry w.state.retryCount oid < MAX_RETRIES <;>
    simp [handleOrderFailed, saveSessionState, h]

/-! ## C10 — "Already running" guard -/

/-- C10: while a run is active (`isRunning` true), both `handleStart` and
`handleResume` answer the error `"Already running"` and return the world —
state and storage — entirely unchanged, with no side effect issued. -/
theorem already_running_guard (w : World) (msg : StartMsg) (msg' : ResumeMsg)
    (tabOk tabOk' : Bool) (tabId tabId' : Nat)
    (hrun : w.state.isRunning = true) :
    handleStart w msg tabOk tabId = (w, [], some "Already running") ∧
    handleResume w msg' tabOk' tabId' = (w, [], some "Already running") := by
  constructor <;> simp [handleStart, handleResume, hrun]

/-- C10 witness: the guard at a concrete mid-run world. -/
theorem already_running_guard_witness :
    handleStart sampleRunning
        { startPage := none, endPage := none, delayMinMs := none,
          delayMaxMs := none, dateFilter := none } true 2 =
      (sampleRunning, [], some "Already running") ∧
    handleResume sampleRunning { delayMinMs := none, delayMaxMs := none } true 2 =
      (sampleRunning, [], some "Already running") :=
  already_running_guard sampleRunning
    { startPage := none, endPage := none, delayMinMs := none,
      delayMaxMs := none, dateFilter := none }
    { delayMinMs := none, delayMaxMs := none } true true 2 2 rfl

/-! ## C6 — double Stop -/

/-- C6 counterexample: `handleStop` does not move `state.phase` to `idle` —
stopping the concrete mid-run world (phase `processing`) leaves the phase at
`processing`, falsifying "leaves Session State in the Idle phase". -/
theorem stop_not_idle_counterexample :
    (handleStop sampleRunning).1.state.phase = Phase.processing ∧
    ¬ (handleStop sampleRunning).1.state.phase = Phase.idle := by
  constructor <;> simp [handleStop, clearSessionState, sampleRunning, initState]

/-- C6 amended: calling Stop twice in a row leaves the session not running
(`isRunning` false, `shouldStop` set) with the checkpoint absent after each
call, and the second call is a complete no-op (idempotence — so the double
clear cannot error); the `phase` field, however, keeps its prior value
rather than being reset to `idle`. -/
theorem stop_idempotent (w : World) :
    (handleStop w).1.storage.sessionState = none ∧
    (handleStop w).1.state.isRunning = false ∧
    (handleStop w).1.state.shouldStop = true ∧
    handleStop (handleStop w).1 = handleStop w ∧
    (handleStop (handleStop w).1).1.state.phase = w.state.phase := by
  refine ⟨rfl, rfl, rfl, rfl, rfl⟩

/-! ## C5 — page exhaustion -/

/-- C5: a `CollectPage` response with zero identifiers finishes the run when
no pages remain past the current one (phase `done`, `isRunning` false,
checkpoint removed), and otherwise advances `currentPage` and returns to
collecting with the run still live and the checkpoint untouched. -/
theorem page_exhaustion (w : World) (navOk : Bool) (p e : Nat)
    (hrun : w.state.isRunning = true) (hstop : w.state.shouldStop = false)
    (hp : w.state.currentPage = some p) (he : w.state.endPage = some e) :
    (e ≤ p →
      (handleOrderIdsCollected w [] none navOk).1.state.phase = Phase.done ∧
      (handleOrderIdsCollected w [] none navOk).1.state.isRunning = false ∧
      (handleOrderIdsCollected w [] none navOk).1.storage.sessionState = none) ∧
    (p < e →
      (handleOrderIdsCollected w [] none navOk).1.state.phase = Phase.collecting ∧
      (handleOrderIdsCollected w [] none navOk).1.state.currentPage = some (p + 1) ∧
      (handleOrderIdsCollected w [] none navOk).1.state.isRunning = true ∧
      (handleOrderIdsCollected w [] none navOk).1.storage = w.storage) := by
  constructor
  · intro hle
    have hlt : ¬ p < e := Nat.not_lt.mpr hle
    simp [handleOrderIdsCollected, clearSessionState, hrun, hstop, hp, he, jsLtOpt, hlt]
  · intro hlt
    simp [handleOrderIdsCollected, hrun, hstop, hp, he, jsLtOpt, hlt]

/-- C5 witness: zero identifiers on the final allowed page (page 2 of 1–2)
finish the run and clear the checkpoint. -/
theorem page_exhaustion_witness :
    (handleOrderIdsCollected finalPageWorld [] none true).1.state.phase = Phase.done ∧
    (handleOrderIdsCollected finalPageWorld [] none true).1.state.isRunning = false ∧
    (handleOrderIdsCollected finalPageWorld [] none true).1.storage.sessionState = none :=
  (page_exhaustion finalPageWorld true 2 2 rfl rfl rfl rfl).1 (by decide)

/-! ## C2 — resume reconstructs the checkpoint -/

/-- C2: if a checkpoint was written from a state `s` (so `s.orderIds` is
nonempty — `saveSessionState` only writes then), then resuming from it while
no run is active answers success and reconstructs the work list, the cursor,
every counter (`processed`, `success`, `failed`, `skipped`, `retried`,
`totalAmount`) and the retry map exactly equal to their values at the
checkpoint write; the identifier at the cursor is the same one, and
`processNextOrder` is scheduled (after the 4 s tab-settle wait) to continue
from it. -/
theorem resume_roundtrip (s s₀ : State) (E : List String) (msg : ResumeMsg) (tabId : Nat)
    (hne : s.orderIds.length ≠ 0) (hidle : s₀.isRunning = false) :
    (handleResume
        { state := s₀, storage := { sessionState := some (mkCheckpoint s), exportedOrders := E } }
        msg true tabId).2.2 = none ∧
    ((handleResume
        { state := s₀, storage := { sessionState := some (mkCheckpoint s), exportedOrders := E } }
        msg true tabId).1.state.orderIds = s.orderIds ∧
      (handleResume
        { state := s₀, storage := { sessionState := some (mkCheckpoint s), exportedOrders := E } }
        msg true tabId).1.state.currentOrderIndex = s.currentOrderIndex ∧
      (handleResume
        { state := s₀, storage := { sessionState := some (mkCheckpoint s), exportedOrders := E } }
        msg true tabId).1.state.processed = s.processed ∧
      (handleResume
        { state := s₀, storage := { sessionState := some (mkCheckpoint s), exportedOrders := E } }
        msg true tabId).1.state.success = s.success ∧
      (handleResume
        { state := s₀, storage := { sessionState := some (mkCheckpoint s), exportedOrders := E } }
        msg true tabId).1.state.failed = s.failed ∧
      (handleResume
        { state := s₀, storage := { sessionState := some (mkCheckpoint s), exportedOrders := E } }
        msg true tabId).1.state.skipped = s.skipped ∧
      (handleResume
        { state := s₀, storage := { sessionState := some (mkCheckpoint s), exportedOrders := E } }
        msg true tabId).1.state.retried = s.retried ∧
      (handleResume
        { state := s₀, storage := { sessionState := some (mkCheckpoint s), exportedOrders := E } }
        msg true tabId).1.state.totalAmount = s.totalAmount ∧
      (handleResume
        { state := s₀, storage := { sessionState := some (mkCheckpoint s), exportedOrders := E } }
        msg true tabId).1.state.retryCount = s.retryCount) ∧
    (handleResume
        { state := s₀, storage := { sessionState := some (mkCheckpoint s), exportedOrders := E } }
        msg true tabId).1.state.orderIds.getD
      (handleResume
        { state := s₀, storage := { sessionState := some (mkCheckpoint s), exportedOrders := E } }
        msg true tabId).1.state.currentOrderIndex "" =
      s.orderIds.getD s.currentOrderIndex "" ∧
    Effect.scheduleNext 4000 ∈
      (handleResume
        { state := s₀, storage := { sessionState := some (mkCheckpoint s), exportedOrders := E } }
        msg true tabId).2.1 := by
  simp [handleResume, mkCheckpoint, hidle, hne, jsOrN_some_zero, jsOrQ_some_zero]

/-- C2 witness: resuming a concrete saved mid-page state recovers its cursor,
counters and retry map exactly. -/
theorem resume_roundtrip_witness :
    (handleResume
        { state := initState,
          storage := { sessionState := some (mkCheckpoint resumeSavedState),
                       exportedOrders := [] } }
        { delayMinMs := none, delayMaxMs := none } true 7).2.2 = none ∧
    ((handleResume
        { state := initState,
          storage := { sessionState := some (mkCheckpoint resumeSavedState),
                       exportedOrders := [] } }
        { delayMinMs := none, delayMaxMs := none } true 7).1.state.orderIds =
        resumeSavedState.orderIds ∧
      (handleResume
        { state := initState,
          storage := { sessionState := some (mkCheckpoint resumeSavedState),
                       exportedOrders := [] } }
        { delayMinMs := none, delayMaxMs := none } true 7).1.state.currentOrderIndex =
        resumeSavedState.currentOrderIndex ∧
      (handleResume
        { state := initState,
          storage := { sessionState := some (mkCheckpoint resumeSavedState),
                       exportedOrders := [] } }
        { delayMinMs := none, delayMaxMs := none } true 7).1.state.processed =
        resumeSavedState.processed ∧
      (handleResume
        { state := initState,
          storage := { sessionState := some (mkCheckpoint resumeSavedState),
                       exportedOrders := [] } }
        { delayMinMs := none, delayMaxMs := none } true 7).1.state.success =
        resumeSavedState.success ∧
      (handleResume
        { state := initState,
          storage := { sessionState := some (mkCheckpoint resumeSavedState),
                       exportedOrders := [] } }
        { delayMinMs := none, delayMaxMs := none } true 7).1.state.failed =
        resumeSavedState.failed ∧
      (handleResume
        { state := initState,
          storage := { sessionState := some (mkCheckpoint resumeSavedState),
                       exportedOrders := [] } }
        { delayMinMs := none, delayMaxMs := none } true 7).1.state.skipped =
        resumeSavedState.skipped ∧
      (handleResume
        { state := initState,
          storage := { sessionState := some (mkCheckpoint resumeSavedState),
                       exportedOrders := [] } }
        { delayMinMs := none, delayMaxMs := none } true 7).1.state.retried =
        resumeSavedState.retried ∧
      (handleResume
        { state := initState,
          storage := { sessionState := some (mkCheckpoint resumeSavedState),
                       exportedOrders := [] } }
        { delayMinMs := none, delayMaxMs := none } true 7).1.state.totalAmount =
        resumeSavedState.totalAmount ∧
      (handleResume
        { state := initState,
          storage := { sessionState := some (mkCheckpoint resumeSavedState),
                       exportedOrders := [] } }
        { delayMinMs := none, delayMaxMs := none } true 7).1.state.retryCount =
        resumeSavedState.retryCount) ∧
    (handleResume
        { state := initState,
          storage := { sessionState := some (mkCheckpoint resumeSavedState),
                       exportedOrders := [] } }
        { delayMinMs := none, delayMaxMs := none } true 7).1.state.orderIds.getD
      (handleResume
        { state := initState,
          storage := { sessionState := some (mkCheckpoint resumeSavedState),
                       exportedOrders := [] } }
        { delayMinMs := none, delayMaxMs := none } true 7).1.state.currentOrderIndex "" =
      resumeSavedState.orderIds.getD resumeSavedState.currentOrderIndex "" ∧
    Effect.scheduleNext 4000 ∈
      (handleResume
        { state := initState,
          storage := { sessionState := some (mkCheckpoint resumeSavedState),
                       exportedOrders := [] } }
        { delayMinMs := none, delayMaxMs := none } true 7).2.1 :=
  resume_roundtrip resumeSavedState initState []
    { delayMinMs := none, delayMaxMs := none } 7 (by decide) rfl

/-! ## C9 — page-range adjustment -/

/-- `processNextOrder`, entered with the cursor on an order that is not in
the dedup set, leaves the run flags, the phase and the paging fields
unchanged (success or failure of the navigation alike). -/
theorem processNextOrder_at_fresh_order (w : World) (navOk : Bool)
    (hstop : w.state.shouldStop = false) (hrun : w.state.isRunning = true)
    (hlt : w.state.currentOrderIndex < w.state.orderIds.length)
    (hne : w.state.orderIds.getD w.state.currentOrderIndex "" ∉ w.state.existingOrderIds) :
    (processNextOrder w navOk).1.state.isRunning = true ∧
    (processNextOrder w navOk).1.state.phase = w.state.phase ∧
    (processNextOrder w navOk).1.state.endPage = w.state.endPage ∧
    (processNextOrder w navOk).1.state.currentPage = w.state.currentPage := by
  have hget : w.state.orderIds.get ⟨w.state.currentOrderIndex, hlt⟩ =
      w.state.orderIds.getD w.state.currentOrderIndex "" := by
    simp [List.getD_eq_getElem?_getD, List.getElem?_eq_getElem hlt]
  have hne' : w.state.orderIds.get ⟨w.state.currentOrderIndex, hlt⟩ ∉
      w.state.existingOrderIds := by
    rw [hget]; exact hne
  have hloop : skipExistingLoop w [] = (w, []) := by
    rw [skipExistingLoop, dif_pos hlt, if_neg hne']
  have hnotle : ¬ w.state.orderIds.length ≤ w.state.currentOrderIndex := Nat.not_le.mpr hlt
  cases navOk with
  | true => simp [processNextOrder, hstop, hrun, hloop, hnotle]
  | false =>
    have hp := handleOrderFailed_preserves w (w.state.orderIds.getD w.state.currentOrderIndex "")
    simp only [processNextOrder, hstop, hrun, hloop, hnotle] at *
    simp_all [hrun]

/-- C9: when the collection response carries a positive `actualMaxPages`
strictly below the current `endPage`, the controller clamps `endPage` down to
it; when `actualMaxPages` is at least `endPage`, `endPage` is unchanged.  In
both cases (shown here for a nonempty work list whose first order is not yet
exported) the same run continues: `isRunning` stays true and the phase moves
to `processing`. -/
theorem page_range_adjustment (w : World) (X : String) (rest : List String)
    (a e : Nat) (navOk : Bool)
    (hrun : w.state.isRunning = true) (hstop : w.state.shouldStop = false)
    (he : w.state.endPage = some e) (ha : 0 < a)
    (hX : X ∉ w.state.existingOrderIds) :
    (a < e →
      (handleOrderIdsCollected w (X :: rest) (some a) navOk).1.state.endPage = some a) ∧
    (e ≤ a →
      (handleOrderIdsCollected w (X :: rest) (some a) navOk).1.state.endPage = some e) ∧
    (handleOrderIdsCollected w (X :: rest) (some a) navOk).1.state.isRunning = true ∧
    (handleOrderIdsCollected w (X :: rest) (some a) navOk).1.state.phase =
      Phase.processing := by
  have key : ∀ (st : Storage) (s₁ : State), s₁.shouldStop = false → s₁.isRunning = true →
      s₁.orderIds = X :: rest → s₁.existingOrderIds = w.state.existingOrderIds →
      (processNextOrder
        { state := { s₁ with phase := Phase.processing, currentOrderIndex := 0 },
          storage := st } navOk).1.state.isRunning = true ∧
      (processNextOrder
        { state := { s₁ with phase := Phase.processing, currentOrderIndex := 0 },
          storage := st } navOk).1.state.phase = Phase.processing ∧
      (processNextOrder
        { state := { s₁ with phase := Phase.processing, currentOrderIndex := 0 },
          storage := st } navOk).1.state.endPage = s₁.endPage := by
    intro st s₁ hss hir hoi hex
    have hstop' : ({ s₁ with phase := Phase.processing, currentOrderIndex := 0 } : State).shouldStop = false := by
      simpa using hss
    have hrun' : ({ s₁ with phase := Phase.processing, currentOrderIndex := 0 } : State).isRunning = true := by
      simpa using hir
    have hlt : ({ s₁ with phase := Phase.processing, currentOrderIndex := 0 } : State).currentOrderIndex <
        ({ s₁ with phase := Phase.processing, currentOrderIndex := 0 } : State).orderIds.length := by
      simp [hoi]
    have hne : ({ s₁ with phase := Phase.processing, currentOrderIndex := 0 } : State).orderIds.getD
        ({ s₁ with phase := Phase.processing, currentOrderIndex := 0 } : State).currentOrderIndex ""
        ∉ ({ s₁ with phase := Phase.processing, currentOrderIndex := 0 } : State).existingOrderIds := by
      simp only [hoi]
      simp [hex, hX]
    have h := processNextOrder_at_fresh_order
      { state := { s₁ with phase := Phase.processing, currentOrderIndex := 0 }, storage := st }
      navOk hstop' hrun' hlt hne
    exact ⟨h.1, by rw [h.2.1], by rw [h.2.2.1]⟩
  refine ⟨?_, ?_, ?_, ?_⟩
  · intro hae
    have := (key
      (saveSessionState
        { state := { { w.state with orderIds := X :: rest } with endPage := some a },
          storage := w.storage }).storage
      { { w.state with orderIds := X :: rest } with endPage := some a }
      (by simp [hstop]) (by simp [hrun]) (by simp) (by simp)).2.2
    simp only [handleOrderIdsCollected, hrun, hstop, he, jsLtNO, ha, hae] at this ⊢
    simp at this ⊢
    simpa using this
  · intro hea
    have hnlt : ¬ a < e := Nat.not_lt.mpr hea
    have := (key
      (saveSessionState
        { state := { w.state with orderIds := X :: rest }, storage := w.storage }).storage
      { w.state with orderIds := X :: rest }
      (by simp [hstop]) (by simp [hrun]) (by simp) (by simp)).2.2
    simp only [handleOrderIdsCollected, hrun, hstop, he, jsLtNO, ha, hnlt] at this ⊢
    simp at this ⊢
    simpa [he] using this
  · by_cases hae : a < e
    · have := (key
        (saveSessionState
          { state := { { w.state with orderIds := X :: rest } with endPage := some a },
            storage := w.storage }).storage
        { { w.state with orderIds := X :: rest } with endPage := some a }
        (by simp [hstop]) (by simp [hrun]) (by simp) (by simp)).1
      simp only [handleOrderIdsCollected, hrun, hstop, he, jsLtNO, ha, hae] at this ⊢
      simp at this ⊢
      simpa using this
    · have := (key
        (saveSessionState
          { state := { w.state with orderIds := X :: rest }, storage := w.storage }).storage
        { w.state with orderIds := X :: rest }
        (by simp [hstop]) (by simp [hrun]) (by simp) (by simp)).1
      simp only [handleOrderIdsCollected, hrun, hstop, he, jsLtNO, ha, hae] at this ⊢
      simp at this ⊢
      simpa using this
  · by_cases hae : a < e
    · have := (key
        (saveSessionState
          { state := { { w.state with orderIds := X :: rest } with endPage := some a },
            storage := w.storage }).storage
        { { w.state with orderIds := X :: rest } with endPage := some a }
        (by simp [hstop]) (by simp [hrun]) (by simp) (by simp)).2.1
      simp only [handleOrderIdsCollected, hrun, hstop, he, jsLtNO, ha, hae] at this ⊢
      simp at this ⊢
      simpa using this
    · have := (key
        (saveSessionState
          { state := { w.state with orderIds := X :: rest }, storage := w.storage }).storage
        { w.state with orderIds := X :: rest }
        (by simp [hstop]) (by simp [hrun]) (by simp) (by simp)).2.1
      simp only [handleOrderIdsCollected, hrun, hstop, he, jsLtNO, ha, hae] at this ⊢
      simp at this ⊢
      simpa using this

/-- C9 witness: a report of 3 actual pages against a requested end page of 5
clamps the end page to 3 while the run continues. -/
theorem page_range_adjustment_witness :
    (handleOrderIdsCollected wideRangeWorld ["A"] (some 3) true).1.state.endPage = some 3 ∧
    (handleOrderIdsCollected wideRangeWorld ["A"] (some 3) true).1.state.isRunning = true ∧
    (handleOrderIdsCollected wideRangeWorld ["A"] (some 3) true).1.state.phase =
      Phase.processing := by
  have h := page_range_adjustment wideRangeWorld "A" [] 3 5 true rfl rfl rfl
    (by decide) (by simp [wideRangeWorld, initState])
  exact ⟨h.1 (by decide), h.2.2.1, h.2.2.2⟩

/-! ## C3 — watchdog stall recovery -/

/-- C3 counterexample: take the concrete mid-run world (order `"A"` in
flight, no retries recorded) and let the watchdog's recovery reload fail.
The claim says the item "immediately becomes a terminal per-item failure
(counted in failed, cursor advanced) rather than being retried again" — but
the code routes it through `handleOrderFailed`, which, with retry budget
left, increments the retry count, leaves `failed` and the cursor untouched,
and schedules another retry. -/
theorem watchdog_reload_fail_counterexample :
    (watchdogFire sampleRunning "A" false).1.state.failed = 0 ∧
    (watchdogFire sampleRunning "A" false).1.state.currentOrderIndex = 0 ∧
    (watchdogFire sampleRunning "A" false).1.state.retryCount = [("A", 1)] ∧
    (watchdogFire sampleRunning "A" false).2 = [Effect.scheduleRetry 3000] := by
  refine ⟨?_, ?_, ?_, ?_⟩ <;>
    simp [watchdogFire, handleOrderFailed, sampleRunning, initState, saveSessionState,
      lookupRetry, setRetry, MAX_RETRIES]

/-- C3 amended: when the watchdog fires mid-run, a successful recovery
reload leaves the retry map and every counter untouched; when the reload
cannot be issued, the stall goes through the normal per-item failure path:
while the item's retry count is below `MAX_RETRIES` it is retried (retry
count incremented, backoff scheduled, `failed` not incremented, cursor not
advanced), and only once the retry count has reached `MAX_RETRIES` does it
become a terminal failure (counted in `failed`, cursor advanced). -/
theorem watchdog_policy (w : World) (oid : String) (t : Nat)
    (hrun : w.state.isRunning = true) (hstop : w.state.shouldStop = false)
    (htab : w.state.currentTabId = some t) :
    ((watchdogFire w oid true).1.state.retryCount = w.state.retryCount ∧
      (watchdogFire w oid true).1.state.failed = w.state.failed ∧
      (watchdogFire w oid true).1.state.processed = w.state.processed ∧
      (watchdogFire w oid true).1.state.currentOrderIndex = w.state.currentOrderIndex ∧
      (watchdogFire w oid true).2 = [Effect.reloadTab]) ∧
    (lookupRetry w.state.retryCount oid < MAX_RETRIES →
      (watchdogFire w oid false).1.state.retryCount =
        setRetry w.state.retryCount oid (lookupRetry w.state.retryCount oid + 1) ∧
      (watchdogFire w oid false).1.state.failed = w.state.failed ∧
      (watchdogFire w oid false).1.state.processed = w.state.processed ∧
      (watchdogFire w oid false).1.state.currentOrderIndex = w.state.currentOrderIndex ∧
      (watchdogFire w oid false).2 =
        [Effect.scheduleRetry (3000 + (lookupRetry w.state.retryCount oid : ℚ) * 2000)]) ∧
    (¬ lookupRetry w.state.retryCount oid < MAX_RETRIES →
      (watchdogFire w oid false).1.state.failed = w.state.failed + 1 ∧
      (watchdogFire w oid false).1.state.processed = w.state.processed + 1 ∧
      (watchdogFire w oid false).1.state.currentOrderIndex =
        w.state.currentOrderIndex + 1 ∧
      (watchdogFire w oid false).1.state.retryCount = w.state.retryCount) := by
  refine ⟨?_, ?_, ?_⟩
  · simp [watchdogFire, hrun, hstop, htab]
  · intro h
    simp [watchdogFire, handleOrderFailed, hrun, hstop, htab, h, saveSessionState]
  · intro h
    simp [watchdogFire, handleOrderFailed, hrun, hstop, htab, h, saveSessionState]

/-- C3 witness: the amended policy at the concrete mid-run world. -/
theorem watchdog_policy_witness :
    ((watchdogFire sampleRunning "A" true).1.state.retryCount =
        sampleRunning.state.retryCount ∧
      (watchdogFire sampleRunning "A" true).1.state.failed =
        sampleRunning.state.failed ∧
      (watchdogFire sampleRunning "A" true).1.state.processed =
        sampleRunning.state.processed ∧
      (watchdogFire sampleRunning "A" true).1.state.currentOrderIndex =
        sampleRunning.state.currentOrderIndex ∧
      (watchdogFire sampleRunning "A" true).2 = [Effect.reloadTab]) ∧
    (lookupRetry sampleRunning.state.retryCount "A" < MAX_RETRIES →
      (watchdogFire sampleRunning "A" false).1.state.retryCount =
        setRetry sampleRunning.state.retryCount "A"
          (lookupRetry sampleRunning.state.retryCount "A" + 1) ∧
      (watchdogFire sampleRunning "A" false).1.state.failed =
        sampleRunning.state.failed ∧
      (watchdogFire sampleRunning "A" false).1.state.processed =
        sampleRunning.state.processed ∧
      (watchdogFire sampleRunning "A" false).1.state.currentOrderIndex =
        sampleRunning.state.currentOrderIndex ∧
      (watchdogFire sampleRunning "A" false).2 =
        [Effect.scheduleRetry
          (3000 + (lookupRetry sampleRunning.state.retryCount "A" : ℚ) * 2000)]) ∧
    (¬ lookupRetry sampleRunning.state.retryCount "A" < MAX_RETRIES →
      (watchdogFire sampleRunning "A" false).1.state.failed =
        sampleRunning.state.failed + 1 ∧
      (watchdogFire sampleRunning "A" false).1.state.processed =
        sampleRunning.state.processed + 1 ∧
      (watchdogFire sampleRunning "A" false).1.state.currentOrderIndex =
        sampleRunning.state.currentOrderIndex + 1 ∧
      (watchdogFire sampleRunning "A" false).1.state.retryCount =
        sampleRunning.state.retryCount) :=
  watchdog_policy sampleRunning "A" 1 rfl rfl rfl

/-! ## C8 — inter-item delay policy -/

/-- A mid-run world whose in-flight order `"X"` has exhausted its retry
budget; the configured delay window is the default `[2000, 7000]` ms. -/
def exhaustedRetryWorld : World where
  state := { initState with
    isRunning := true
    phase := Phase.processing
    orderIds := ["X"]
    currentTabId := some 1
    retryCount := [("X", 3)] }
  storage := initStorage

/-- First projection of an `ite` whose branches share their first component. -/
theorem fst_ite_pair {α β : Type} {c : Prop} [Decidable c] (a : α) (e₁ e₂ : β) :
    (if c then (a, e₁) else (a, e₂)).1 = a := by
  split <;> rfl

/-- Second projection of an `ite` of pairs. -/
theorem snd_ite_pair {α β : Type} {c : Prop} [Decidable c] (a : α) (e₁ e₂ : β) :
    (if c then (a, e₁) else (a, e₂)).2 = if c then e₁ else e₂ := by
  split <;> rfl

/-- The skip loop emits only status broadcasts beyond what it was handed:
no navigation, no extraction request, no scheduled delay. -/
theorem skipExistingLoop_effects (w : World) (effs : List Effect) :
    ∀ e ∈ (skipExistingLoop w effs).2, e ∈ effs ∨ e = Effect.broadcast := by
  induction w, effs using skipExistingLoop.induct with
  | case1 w effs h h2 ih =>
    rw [skipExistingLoop, dif_pos h, if_pos h2]
    intro e he
    rcases ih e he with h' | h'
    · rcases List.mem_append.mp h' with h'' | h''
      · exact Or.inl h''
      · simp at h''; subst h''; exact Or.inr rfl
    · exact Or.inr h'
  | case2 w effs h h2 =>
    rw [skipExistingLoop, dif_pos h, if_neg h2]
    exact fun e he => Or.inl he
  | case3 w effs h =>
    rw [skipExistingLoop, dif_neg h]
    exact fun e he => Or.inl he

/-- C8 counterexample: an item that completes as a terminal failure through
`handleOrderFailed` (retry budget exhausted) is followed by a fixed 1000 ms
wait — strictly below the configured `delayMinMs` of 2000 ms — not by a
randomized delay drawn from `[delayMinMs, delayMaxMs]`. -/
theorem fixed_delay_counterexample :
    (handleOrderFailed exhaustedRetryWorld "X").2 =
      [Effect.broadcast, Effect.scheduleNext 1000] ∧
    (1000 : ℚ) < exhaustedRetryWorld.state.delayMinMs := by
  constructor
  · simp [handleOrderFailed, exhaustedRetryWorld, initState, lookupRetry,
      MAX_RETRIES, saveSessionState]
  · norm_num [exhaustedRetryWorld, initState]

/-- C8 amended: the randomized inter-item delay applies only to items that
complete through the extraction handler.  Precisely: (1) `getRandomDelay`
always yields at least `delayMinMs`, at most `delayMaxMs + 15000` (the
largest possible distraction pause), and lands inside `[delayMinMs,
delayMaxMs]` whenever neither pause triggers; (2) after a successful
extraction the handler schedules either the rest break (when due) or the
`getRandomDelay` draw; (3) a terminal failure through `handleOrderFailed`
waits a fixed 1000 ms regardless of the configured window; (4) skipped items
introduce no delay at all — the skip loop emits only status broadcasts; and
(5) the non-retryable (`skipRetry`) path schedules nothing: it ends in the
call to the undefined `scheduleNextOrder`. -/
theorem inter_item_delay_policy :
    (∀ (s : State) (r : RandStream),
      0 ≤ r.baseDraw → r.baseDraw < 1 → 0 ≤ r.thinkAmtDraw → r.thinkAmtDraw < 1 →
      0 ≤ r.distAmtDraw → r.distAmtDraw < 1 → s.delayMinMs ≤ s.delayMaxMs →
      s.delayMinMs ≤ getRandomDelay s r ∧
      getRandomDelay s r ≤ s.delayMaxMs + 15000 ∧
      (¬ r.thinkCheckDraw < 15/100 → ¬ r.distCheckDraw < 5/100 →
        getRandomDelay s r ≤ s.delayMaxMs)) ∧
    (∀ (w : World) (d : ExtractData) (rnd : RandStream),
      w.state.isRunning = true → d.hasData = true → d.isMasked = false →
      (0 < checkRestBreak (handleOrderDataExtracted w d rnd).1.state rnd →
        Effect.scheduleNext (checkRestBreak (handleOrderDataExtracted w d rnd).1.state rnd)
          ∈ (handleOrderDataExtracted w d rnd).2) ∧
      (¬ 0 < checkRestBreak (handleOrderDataExtracted w d rnd).1.state rnd →
        Effect.scheduleNext (getRandomDelay (handleOrderDataExtracted w d rnd).1.state rnd)
          ∈ (handleOrderDataExtracted w d rnd).2)) ∧
    (∀ (w : World) (oid : String),
      ¬ lookupRetry w.state.retryCount oid < MAX_RETRIES →
      (handleOrderFailed w oid).2 = [Effect.broadcast, Effect.scheduleNext 1000]) ∧
    (∀ (w : World) (effs : List Effect),
      ∀ e ∈ (skipExistingLoop w effs).2, e ∈ effs ∨ e = Effect.broadcast) ∧
    (∀ (w : World) (d : ExtractData) (rnd : RandStream),
      w.state.isRunning = true → d.hasData = false → d.skipRetry = true →
      (handleOrderDataExtracted w d rnd).2 =
        [Effect.stopWatchdog, Effect.broadcast, Effect.jsError "scheduleNextOrder"]) := by
  refine ⟨?_, ?_, ?_, ?_, ?_⟩
  · intro s r hb0 hb1 ht0 ht1 hd0 hd1 hmm
    have hspan : (0 : ℚ) ≤ s.delayMaxMs - s.delayMinMs := by linarith
    have hbase0 : 0 ≤ r.baseDraw * (s.delayMaxMs - s.delayMinMs) :=
      mul_nonneg hb0 hspan
    have hbase1 : r.baseDraw * (s.delayMaxMs - s.delayMinMs) ≤ s.delayMaxMs - s.delayMinMs := by
      nlinarith
    have hthink : r.thinkAmtDraw * 3000 ≤ 3000 := by nlinarith
    have hthink0 : 0 ≤ r.thinkAmtDraw * 3000 := by nlinarith
    have hdist : r.distAmtDraw * 7000 ≤ 7000 := by nlinarith
    have hdist0 : 0 ≤ r.distAmtDraw * 7000 := by nlinarith
    unfold getRandomDelay
    dsimp only
    split_ifs with h1 h2
    · refine ⟨by linarith, by linarith, ?_⟩
      intro hc; exact absurd h1 hc
    · refine ⟨by linarith, by linarith, ?_⟩
      intro _ hc; exact absurd h2 hc
    · exact ⟨by linarith, by linarith, fun _ _ => by linarith⟩
  · intro w d rnd hrun hd hm
    simp only [handleOrderDataExtracted, hrun, hd, hm, Bool.not_false, Bool.and_self,
      Bool.true_and, if_true, Bool.not_true, Bool.false_eq_true, if_false]
    simp only [fst_ite_pair, snd_ite_pair]
    constructor
    · intro h
      rw [if_pos h]
      simp
    · intro h
      rw [if_neg h]
      simp
  · intro w oid h
    simp [handleOrderFailed, h, saveSessionState]
  · exact skipExistingLoop_effects
  · intro w d rnd hrun hd hskip
    simp [handleOrderDataExtracted, hrun, hd, hskip, saveSessionState]

/-- C8 witness: the fixed 1000 ms wait of the terminal-failure path,
obtained from the amended policy at a concrete world. -/
theorem inter_item_delay_policy_witness :
    (handleOrderFailed exhaustedRetryWorld "X").2 =
      [Effect.broadcast, Effect.scheduleNext 1000] :=
  inter_item_delay_policy.2.2.1 exhaustedRetryWorld "X" (by decide)

/-! ## C4 — dedup-on-start skipping -/

/-- `saveToStorage` rewrites only `collectedData`, `existingOrderIds` and the
persisted `exportedOrders`; everything else is untouched. -/
theorem saveToStorage_preserves (w : World) :
    (saveToStorage w).state.orderIds = w.state.orderIds ∧
    (saveToStorage w).state.currentOrderIndex = w.state.currentOrderIndex ∧
    (saveToStorage w).state.processed = w.state.processed ∧
    (saveToStorage w).state.success = w.state.success ∧
    (saveToStorage w).state.failed = w.state.failed ∧
    (saveToStorage w).state.skipped = w.state.skipped ∧
    (saveToStorage w).state.retried = w.state.retried ∧
    (saveToStorage w).state.retryCount = w.state.retryCount ∧
    (saveToStorage w).state.isRunning = w.state.isRunning ∧
    (saveToStorage w).state.shouldStop = w.state.shouldStop ∧
    (saveToStorage w).state.phase = w.state.phase ∧
    (saveToStorage w).state.currentPage = w.state.currentPage ∧
    (saveToStorage w).state.endPage = w.state.endPage ∧
    (saveToStorage w).state.delayMinMs = w.state.delayMinMs ∧
    (saveToStorage w).state.delayMaxMs = w.state.delayMaxMs ∧
    (saveToStorage w).storage.sessionState = w.storage.sessionState := by
  unfold saveToStorage
  dsimp only
  split_ifs <;> simp

/-- What the skip loop does to the state: it only advances the cursor and the
`skipped` counter, in lockstep, over a prefix of already-exported orders, and
when it stops inside the list the order at the new cursor is not in the
dedup set. -/
theorem skipExistingLoop_spec (w : World) (effs : List Effect) :
    (skipExistingLoop w effs).1.state.orderIds = w.state.orderIds ∧
    (skipExistingLoop w effs).1.state.existingOrderIds = w.state.existingOrderIds ∧
    (skipExistingLoop w effs).1.state.processed = w.state.processed ∧
    (skipExistingLoop w effs).1.state.success = w.state.success ∧
    (skipExistingLoop w effs).1.state.failed = w.state.failed ∧
    (skipExistingLoop w effs).1.state.isRunning = w.state.isRunning ∧
    (skipExistingLoop w effs).1.state.shouldStop = w.state.shouldStop ∧
    (skipExistingLoop w effs).1.state.phase = w.state.phase ∧
    (skipExistingLoop w effs).1.state.currentPage = w.state.currentPage ∧
    (skipExistingLoop w effs).1.state.endPage = w.state.endPage ∧
    w.state.currentOrderIndex ≤ (skipExistingLoop w effs).1.state.currentOrderIndex ∧
    (skipExistingLoop w effs).1.state.skipped + w.state.currentOrderIndex =
      w.state.skipped + (skipExistingLoop w effs).1.state.currentOrderIndex ∧
    ((skipExistingLoop w effs).1.state.currentOrderIndex < w.state.orderIds.length →
      w.state.orderIds.getD (skipExistingLoop w effs).1.state.currentOrderIndex "" ∉
        w.state.existingOrderIds) ∧
    (∀ h : w.state.currentOrderIndex < w.state.orderIds.length,
      w.state.orderIds.get ⟨w.state.currentOrderIndex, h⟩ ∈ w.state.existingOrderIds →
      w.state.currentOrderIndex + 1 ≤ (skipExistingLoop w effs).1.state.currentOrderIndex) := by
  induction w, effs using skipExistingLoop.induct with
  | case1 w effs h h2 ih =>
    obtain ⟨i1, i2, i3, i4, i5, i6, i7, i8, i9, i10, i11, i12, i13, i14⟩ := ih
    rw [skipExistingLoop, dif_pos h, if_pos h2]
    have i11' : w.state.currentOrderIndex + 1 ≤
        (skipExistingLoop
          (saveSessionState
            { w with state := { w.state with
                skipped := w.state.skipped + 1
                currentOrderIndex := w.state.currentOrderIndex + 1 } })
          (effs ++ [Effect.broadcast])).1.state.currentOrderIndex := i11
    have i12' : (skipExistingLoop
          (saveSessionState
            { w with state := { w.state with
                skipped := w.state.skipped + 1
                currentOrderIndex := w.state.currentOrderIndex + 1 } })
          (effs ++ [Effect.broadcast])).1.state.skipped +
          (w.state.currentOrderIndex + 1) =
        (w.state.skipped + 1) +
          (skipExistingLoop
            (saveSessionState
              { w with state := { w.state with
                  skipped := w.state.skipped + 1
                  currentOrderIndex := w.state.currentOrderIndex + 1 } })
            (effs ++ [Effect.broadcast])).1.state.currentOrderIndex := i12
    refine ⟨i1.trans rfl, i2.trans rfl, i3.trans rfl, i4.trans rfl, i5.trans rfl,
      i6.trans rfl, i7.trans rfl, i8.trans rfl, i9.trans rfl, i10.trans rfl,
      by omega, by omega, ?_, ?_⟩
    · exact i13
    · intro _ _
      omega
  | case2 w effs h h2 =>
    rw [skipExistingLoop, dif_pos h, if_neg h2]
    refine ⟨rfl, rfl, rfl, rfl, rfl, rfl, rfl, rfl, rfl, rfl, le_refl _, rfl, ?_, ?_⟩
    · intro hlt
      have hg : w.state.orderIds.getD w.state.currentOrderIndex "" =
          w.state.orderIds.get ⟨w.state.currentOrderIndex, h⟩ := by
        simp [List.getD_eq_getElem?_getD, List.getElem?_eq_getElem h]
      rw [hg]
      exact h2
    · intro h' hmem
      exact absurd hmem h2
  | case3 w effs h =>
    rw [skipExistingLoop, dif_neg h]
    refine ⟨rfl, rfl, rfl, rfl, rfl, rfl, rfl, rfl, rfl, rfl, le_refl _, rfl, ?_, ?_⟩
    · intro hlt
      exact absurd hlt h
    · intro h' _
      exact absurd h' h

/-- `handleOrderFailed` issues either a retry schedule or a broadcast plus a
next-order schedule — in particular, never a navigation. -/
theorem handleOrderFailed_effects (w : World) (oid : String) :
    (handleOrderFailed w oid).2 =
        [Effect.scheduleRetry (3000 + (lookupRetry w.state.retryCount oid : ℚ) * 2000)] ∨
      (handleOrderFailed w oid).2 = [Effect.broadcast, Effect.scheduleNext 1000] := by
  unfold handleOrderFailed
  dsimp only
  split_ifs <;> simp

/-- A fresh page whose first order is new but whose second order `"X"` is
already in Accumulated Results. -/
def dedupWorld : World where
  state := { initState with
    isRunning := true
    phase := Phase.processing
    orderIds := ["A", "X"]
    existingOrderIds := ["X"]
    currentTabId := some 1 }
  storage := { sessionState := none, exportedOrders := ["X"] }

/-- C4 counterexample: with work list `["A", "X"]` and `"X"` already
exported, the first processing step issues the page's first real navigation
(to `"A"`'s detail page) while `"X"` has not yet been classified as skipped
(`skipped` still 0, cursor still 0) — so the classification of an
already-exported identifier does not, in general, happen before the page's
first navigation. -/
theorem dedup_not_before_navigation_counterexample :
    Effect.navigate 0 (NavTarget.orderDetail "A") ∈ (processNextOrder dedupWorld true).2 ∧
    (processNextOrder dedupWorld true).1.state.skipped = 0 ∧
    (processNextOrder dedupWorld true).1.state.currentOrderIndex = 0 := by
  have hloop : skipExistingLoop dedupWorld [] = (dedupWorld, []) := by
    rw [skipExistingLoop, dif_pos (by decide), if_neg (by decide)]
  have hguard : (dedupWorld.state.shouldStop || !dedupWorld.state.isRunning) = false := rfl
  have hlen : ¬ (dedupWorld.state.orderIds.length ≤ dedupWorld.state.currentOrderIndex) := by
    decide
  have hgetD : dedupWorld.state.orderIds.getD dedupWorld.state.currentOrderIndex "" = "A" :=
    rfl
  refine ⟨?_, ?_, ?_⟩ <;>
    simp [processNextOrder, hguard, hloop, hlen, hgetD] <;> rfl

/-- C4 amended: an already-exported identifier is classified as skipped when
the cursor reaches it, and no navigation to its item page is ever issued by
the processing step: every detail-page navigation `processNextOrder` emits
targets an identifier outside `existingOrderIds`, and whenever the order at
the cursor is already exported the step increments `skipped` (by at least
one, covering it) without navigating to it.  The classification is not
guaranteed to precede the page's first navigation unless the identifier sits
in the leading already-exported run of the work list. -/
theorem dedup_skip (w : World) (navOk : Bool)
    (hrun : w.state.isRunning = true) (hstop : w.state.shouldStop = false) :
    (∀ dm oid, Effect.navigate dm (NavTarget.orderDetail oid) ∈ (processNextOrder w navOk).2 →
      oid ∉ w.state.existingOrderIds) ∧
    (∀ h : w.state.currentOrderIndex < w.state.orderIds.length,
      w.state.orderIds.get ⟨w.state.currentOrderIndex, h⟩ ∈ w.state.existingOrderIds →
      w.state.skipped + 1 ≤ (processNextOrder w navOk).1.state.skipped) := by
  obtain ⟨e1, e2, e3, e4, e5, e6, e7, e8, e9, e10, e11, e12, e13, e14⟩ :=
    skipExistingLoop_spec w []
  have heff := skipExistingLoop_effects w []
  have hguard : (w.state.shouldStop || !w.state.isRunning) = false := by
    simp [hstop, hrun]
  constructor
  · intro dm oid hmem
    intro hoid
    simp only [processNextOrder, hguard, Bool.false_eq_true, if_false] at hmem
    by_cases hdone : (skipExistingLoop w []).1.state.orderIds.length ≤
        (skipExistingLoop w []).1.state.currentOrderIndex
    · rw [if_pos hdone] at hmem
      by_cases hpage : jsLtOpt (saveToStorage (skipExistingLoop w []).1).state.currentPage
          (saveToStorage (skipExistingLoop w []).1).state.endPage = true
      · rw [if_pos hpage] at hmem
        rcases List.mem_append.mp hmem with hh | hh
        · rcases heff _ hh with h' | h' <;> simp_all
        · simp_all
      · rw [if_neg hpage] at hmem
        rcases List.mem_append.mp hmem with hh | hh
        · rcases heff _ hh with h' | h' <;> simp_all
        · simp_all
    · rw [if_neg hdone] at hmem
      by_cases hnav : navOk = true
      · rw [if_pos hnav] at hmem
        rcases List.mem_append.mp hmem with hh | hh
        · rcases heff _ hh with h' | h' <;> simp_all
        · have hcur : (skipExistingLoop w []).1.state.currentOrderIndex <
              w.state.orderIds.length := by
            rw [← e1]; omega
          have hfresh := e13 hcur
          simp only [List.mem_cons, List.mem_singleton] at hh
          rcases hh with hh | hh | hh | hh
          · exact Effect.noConfusion hh
          · exact Effect.noConfusion hh
          · have hinj := hh
            simp only [Effect.navigate.injEq, NavTarget.orderDetail.injEq] at hinj
            rw [hinj.2, e1] at hoid
            exact hfresh hoid
          · simp at hh
      · rw [if_neg hnav] at hmem
        rcases List.mem_append.mp hmem with hh | hh
        · rcases List.mem_append.mp hh with hh' | hh'
          · rcases heff _ hh' with h' | h' <;> simp_all
          · simp only [List.mem_cons, List.mem_singleton] at hh'
            rcases hh' with hh' | hh' | hh'
            · exact Effect.noConfusion hh'
            · exact Effect.noConfusion hh'
            · simp at hh'
        · rcases handleOrderFailed_effects (skipExistingLoop w []).1
            ((skipExistingLoop w []).1.state.orderIds.getD
              (skipExistingLoop w []).1.state.currentOrderIndex "") with h' | h' <;>
            rw [h'] at hh <;> simp at hh
  · intro h hmem
    have hskip := e14 h hmem
    have hge : w.state.skipped + 1 ≤ (skipExistingLoop w []).1.state.skipped := by omega
    simp only [processNextOrder, hguard, Bool.false_eq_true, if_false]
    by_cases hdone : (skipExistingLoop w []).1.state.orderIds.length ≤
        (skipExistingLoop w []).1.state.currentOrderIndex
    · rw [if_pos hdone]
      have hsto := (saveToStorage_preserves (skipExistingLoop w []).1).2.2.2.2.2.1
      by_cases hpage : jsLtOpt (saveToStorage (skipExistingLoop w []).1).state.currentPage
          (saveToStorage (skipExistingLoop w []).1).state.endPage = true
      · rw [if_pos hpage]
        simp only [clearSessionState]
        omega
      · rw [if_neg hpage]
        simp only [clearSessionState]
        omega
    · rw [if_neg hdone]
      by_cases hnav : navOk = true
      · rw [if_pos hnav]
        dsimp only
        omega
      · rw [if_neg hnav]
        have hskp := (handleOrderFailed_preserves (skipExistingLoop w []).1
          ((skipExistingLoop w []).1.state.orderIds.getD
            (skipExistingLoop w []).1.state.currentOrderIndex "")).2.2.2.2.2.2.2
        dsimp only
        omega

/-- C4 witness: the amended dedup property at the concrete two-order world —
the step's only detail navigation targets the fresh order, never the
already-exported `"X"`. -/
theorem dedup_skip_witness :
    (∀ dm oid,
      Effect.navigate dm (NavTarget.orderDetail oid) ∈ (processNextOrder dedupWorld true).2 →
      oid ∉ dedupWorld.state.existingOrderIds) ∧
    (∀ h : dedupWorld.state.currentOrderIndex < dedupWorld.state.orderIds.length,
      dedupWorld.state.orderIds.get ⟨dedupWorld.state.currentOrderIndex, h⟩ ∈
        dedupWorld.state.existingOrderIds →
      dedupWorld.state.skipped + 1 ≤ (processNextOrder dedupWorld true).1.state.skipped) :=
  dedup_skip dedupWorld true rfl rfl

/-! ## C1 — retry ceiling then success -/

/-- A JS property write in the retry map is read back by the same key. -/
theorem lookupRetry_setRetry (m : List (String × Nat)) (k : String) (v : Nat) :
    lookupRetry (setRetry m k v) k = v := by
  induction m with
  | nil => simp [lookupRetry, setRetry]
  | cons p m ih =>
    by_cases h : p.1 = k
    · simp [setRetry, lookupRetry, h, List.find?]
    · by_cases hm : m.any (fun q => decide (q.1 = k)) = true
      · have ih' := ih
        simp only [setRetry, hm, if_true] at ih'
        simp only [setRetry, List.any_cons, h, decide_eq_true_eq, decide_False,
          Bool.false_or, hm, if_true, List.map_cons, if_neg h]
        simp only [lookupRetry, List.find?, decide_eq_true_eq, h, decide_False] at ih' ⊢
        simpa [h] using ih'
      · have ih' := ih
        simp only [setRetry, hm, if_false] at ih'
        simp only [setRetry, List.any_cons, h, decide_eq_true_eq, decide_False,
          Bool.false_or, hm, if_false, List.cons_append]
        simp only [lookupRetry, List.find?, decide_eq_true_eq, h, decide_False] at ih' ⊢
        simpa [h] using ih'

/-- A scheduled `retryCurrentOrder` callback whose navigation succeeds leaves
the whole world unchanged. -/
theorem retryCurrentOrder_state (w : World) : (retryCurrentOrder w true).1 = w := by
  unfold retryCurrentOrder
  dsimp only
  split_ifs <;> first | rfl | simp_all

/-- `processCurrentOrder` with a delivered extraction request touches nothing
but the in-flight flag. -/
theorem processCurrentOrder_fields (w : World) :
    (processCurrentOrder w true).1.state.retryCount = w.state.retryCount ∧
    (processCurrentOrder w true).1.state.success = w.state.success ∧
    (processCurrentOrder w true).1.state.failed = w.state.failed ∧
    (processCurrentOrder w true).1.state.processed = w.state.processed ∧
    (processCurrentOrder w true).1.state.retried = w.state.retried ∧
    (processCurrentOrder w true).1.state.currentOrderIndex = w.state.currentOrderIndex ∧
    (processCurrentOrder w true).1.state.orderIds = w.state.orderIds ∧
    (processCurrentOrder w true).1.state.isRunning = w.state.isRunning ∧
    (processCurrentOrder w true).1.state.shouldStop = w.state.shouldStop := by
  unfold processCurrentOrder
  dsimp only
  split_ifs <;> simp_all

/-- One transient-failure extraction response with retry budget left: the
attempt count for the in-flight order is bumped, nothing else moves. -/
theorem extracted_transient_fields (w : World) (d : ExtractData) (rnd : RandStream)
    (hrun : w.state.isRunning = true)
    (hfail : d.hasData = false ∨ d.isMasked = true) (hskip : d.skipRetry = false)
    (hlt : lookupRetry w.state.retryCount
        (w.state.orderIds.getD w.state.currentOrderIndex "") < MAX_RETRIES) :
    (handleOrderDataExtracted w d rnd).1.state.retryCount =
      setRetry w.state.retryCount (w.state.orderIds.getD w.state.currentOrderIndex "")
        (lookupRetry w.state.retryCount
          (w.state.orderIds.getD w.state.currentOrderIndex "") + 1) ∧
    (handleOrderDataExtracted w d rnd).1.state.success = w.state.success ∧
    (handleOrderDataExtracted w d rnd).1.state.failed = w.state.failed ∧
    (handleOrderDataExtracted w d rnd).1.state.processed = w.state.processed ∧
    (handleOrderDataExtracted w d rnd).1.state.retried = w.state.retried ∧
    (handleOrderDataExtracted w d rnd).1.state.currentOrderIndex =
      w.state.currentOrderIndex ∧
    (handleOrderDataExtracted w d rnd).1.state.orderIds = w.state.orderIds ∧
    (handleOrderDataExtracted w d rnd).1.state.isRunning = true ∧
    (handleOrderDataExtracted w d rnd).1.state.shouldStop = w.state.shouldStop := by
  have hlt' : lookupRetry w.state.retryCount
      (w.state.orderIds[w.state.currentOrderIndex]?.getD "") < MAX_RETRIES := by
    rw [← List.getD_eq_getElem?_getD]
    exact hlt
  rcases hfail with hf | hf <;>
    simp [handleOrderDataExtracted, hrun, hf, hskip, hlt, hlt', saveSessionState]

/-- One successful extraction response: `success` and `processed` go up by
one, `failed` is untouched, and `retried` goes up by one exactly when the
order had recorded retry attempts. -/
theorem extracted_success_fields (w : World) (d : ExtractData) (rnd : RandStream)
    (hrun : w.state.isRunning = true) (hd : d.hasData = true) (hm : d.isMasked = false) :
    (handleOrderDataExtracted w d rnd).1.state.success = w.state.success + 1 ∧
    (handleOrderDataExtracted w d rnd).1.state.processed = w.state.processed + 1 ∧
    (handleOrderDataExtracted w d rnd).1.state.failed = w.state.failed ∧
    (handleOrderDataExtracted w d rnd).1.state.retried =
      (if lookupRetry w.state.retryCount
          (w.state.orderIds.getD w.state.currentOrderIndex "") > 0 then
        w.state.retried + 1
      else w.state.retried) ∧
    (handleOrderDataExtracted w d rnd).1.state.currentOrderIndex =
      w.state.currentOrderIndex + 1 := by
  simp only [handleOrderDataExtracted, hrun, hd, hm, Bool.not_false, Bool.and_self,
    Bool.true_and, if_true, Bool.not_true, Bool.false_eq_true, if_false, fst_ite_pair,
    saveSessionState]
  refine ⟨?_, ?_, ?_, ?_, ?_⟩
  · rw [(saveToStorage_preserves _).2.2.2.1]
  · rw [(saveToStorage_preserves _).2.2.1]
  · rw [(saveToStorage_preserves _).2.2.2.2.1]
  · rw [(saveToStorage_preserves _).2.2.2.2.2.2.1]
  · rw [(saveToStorage_preserves _).2.1]

/-- One full failed attempt as the run replays it: the transient-failure
response, the scheduled retry navigation, and the re-dispatched extraction
request. -/
def failRound (w : World) (dF : ExtractData) (rnd : RandStream) : World :=
  applyEvents w [Event.extracted dF rnd, Event.retryNow true, Event.procCurrent true]

/-- A failed attempt with retry budget left bumps the in-flight order's
attempt count from `n` to `n + 1` and changes no counter, no cursor, no work
list, and no run flag. -/
theorem failRound_fields (w : World) (dF : ExtractData) (rnd : RandStream) (n : Nat)
    (hrun : w.state.isRunning = true)
    (hfail : dF.hasData = false ∨ dF.isMasked = true) (hskip : dF.skipRetry = false)
    (hn : lookupRetry w.state.retryCount
        (w.state.orderIds.getD w.state.currentOrderIndex "") = n)
    (hlt : n < MAX_RETRIES) :
    (failRound w dF rnd).state.isRunning = true ∧
    (failRound w dF rnd).state.orderIds = w.state.orderIds ∧
    (failRound w dF rnd).state.currentOrderIndex = w.state.currentOrderIndex ∧
    (failRound w dF rnd).state.success = w.state.success ∧
    (failRound w dF rnd).state.failed = w.state.failed ∧
    (failRound w dF rnd).state.processed = w.state.processed ∧
    (failRound w dF rnd).state.retried = w.state.retried ∧
    lookupRetry (failRound w dF rnd).state.retryCount
      ((failRound w dF rnd).state.orderIds.getD
        (failRound w dF rnd).state.currentOrderIndex "") = n + 1 := by
  obtain ⟨a1, a2, a3, a4, a5, a6, a7, a8, a9⟩ :=
    extracted_transient_fields w dF rnd hrun hfail hskip (by rw [hn]; exact hlt)
  rw [hn] at a1
  have hfr : failRound w dF rnd =
      (processCurrentOrder (handleOrderDataExtracted w dF rnd).1 true).1 := by
    simp only [failRound, applyEvents, List.foldl, applyEvent]
    rw [retryCurrentOrder_state]
  obtain ⟨b1, b2, b3, b4, b5, b6, b7, b8, b9⟩ :=
    processCurrentOrder_fields (handleOrderDataExtracted w dF rnd).1
  rw [hfr]
  refine ⟨b8.trans a8, b7.trans a7, b6.trans a6, b2.trans a2, b3.trans a3,
    b4.trans a4, b5.trans a5, ?_⟩
  rw [b1, b6, b7, a1, a6, a7]
  exact lookupRetry_setRetry w.state.retryCount
    (w.state.orderIds.getD w.state.currentOrderIndex "") (n + 1)

/-- The event history of claim C1: an item fails transiently `MAX_RETRIES`
times — each failure followed by the scheduled retry navigation and the
re-dispatched extraction — and succeeds on the next attempt. -/
def c1Events (dF dS : ExtractData) (rnd : RandStream) : List Event :=
  [Event.extracted dF rnd, Event.retryNow true, Event.procCurrent true,
    Event.extracted dF rnd, Event.retryNow true, Event.procCurrent true,
    Event.extracted dF rnd, Event.retryNow true, Event.procCurrent true,
    Event.extracted dS rnd]

/-- C1: from any mid-run point whose in-flight identifier has no recorded
retries, exactly `MAX_RETRIES` (three) transient extraction failures — each
below the ceiling, each retried in place without advancing the cursor —
followed by a success on the next attempt leave the counters with exactly one
more `success`, one more `retried` (the order is counted as recovered by
retry), one more `processed`, and `failed` unchanged: the identifier is never
counted as failed. -/
theorem retry_ceiling (w : World) (dF dS : ExtractData) (rnd : RandStream)
    (hrun : w.state.isRunning = true)
    (hr0 : lookupRetry w.state.retryCount
      (w.state.orderIds.getD w.state.currentOrderIndex "") = 0)
    (hfail : dF.hasData = false ∨ dF.isMasked = true) (hskip : dF.skipRetry = false)
    (hd : dS.hasData = true) (hm : dS.isMasked = false) :
    (applyEvents w (c1Events dF dS rnd)).state.success = w.state.success + 1 ∧
    (applyEvents w (c1Events dF dS rnd)).state.retried = w.state.retried + 1 ∧
    (applyEvents w (c1Events dF dS rnd)).state.failed = w.state.failed ∧
    (applyEvents w (c1Events dF dS rnd)).state.processed = w.state.processed + 1 := by
  obtain ⟨r1a, r1b, r1c, r1d, r1e, r1f, r1g, r1h⟩ :=
    failRound_fields w dF rnd 0 hrun hfail hskip hr0 (by decide)
  obtain ⟨r2a, r2b, r2c, r2d, r2e, r2f, r2g, r2h⟩ :=
    failRound_fields (failRound w dF rnd) dF rnd 1 r1a hfail hskip r1h (by decide)
  obtain ⟨r3a, r3b, r3c, r3d, r3e, r3f, r3g, r3h⟩ :=
    failRound_fields (failRound (failRound w dF rnd) dF rnd) dF rnd 2 r2a hfail hskip
      r2h (by decide)
  obtain ⟨s1, s2, s3, s4, s5⟩ :=
    extracted_success_fields (failRound (failRound (failRound w dF rnd) dF rnd) dF rnd)
      dS rnd r3a hd hm
  have heq : applyEvents w (c1Events dF dS rnd) =
      (handleOrderDataExtracted
        (failRound (failRound (failRound w dF rnd) dF rnd) dF rnd) dS rnd).1 := rfl
  rw [heq]
  rw [r3h] at s4
  refine ⟨?_, ?_, ?_, ?_⟩
  · rw [s1, r3d, r2d, r1d]
  · rw [s4]
    simp only [gt_iff_lt, Nat.zero_lt_succ, if_true]
    rw [r3g, r2g, r1g]
  · rw [s3, r3e, r2e, r1e]
  · rw [s2, r3f, r2f, r1f]

/-- A transient extraction failure (`hasData` false, `skipRetry` absent). -/
def transientFail : ExtractData where
  hasData := false
  isMasked := false
  skipRetry := false
  total_amount := 0

/-- A successful, unmasked extraction. -/
def successData : ExtractData where
  hasData := true
  isMasked := false
  skipRetry := false
  total_amount := 0

/-- An all-zero random stream (every `Math.random()` draw returns 0). -/
def zeroRand : RandStream where
  breakIntervalDraw := 0
  breakDurationDraw := 0
  baseDraw := 0
  thinkCheckDraw := 0
  thinkAmtDraw := 0
  distCheckDraw := 0
  distAmtDraw := 0

/-- C1 witness: the retry-ceiling scenario run from the concrete mid-run
world — final counters gain one `success`, one `retried`, one `processed`,
and no `failed`. -/
theorem retry_ceiling_witness :
    (applyEvents sampleRunning (c1Events transientFail successData zeroRand)).state.success =
      sampleRunning.state.success + 1 ∧
    (applyEvents sampleRunning (c1Events transientFail successData zeroRand)).state.retried =
      sampleRunning.state.retried + 1 ∧
    (applyEvents sampleRunning (c1Events transientFail successData zeroRand)).state.failed =
      sampleRunning.state.failed ∧
    (applyEvents sampleRunning (c1Events transientFail successData zeroRand)).state.processed =
      sampleRunning.state.processed + 1 :=
  retry_ceiling sampleRunning transientFail successData zeroRand rfl rfl
    (Or.inl rfl) rfl rfl rfl

/-! ## C7 — counters invariant -/

/-- The spec's quiescent-point counter equation. -/
def CountersOk (s : State) : Prop :=
  s.processed = s.success + s.failed

/-- Any checkpoint held in storage satisfies the counter equation. -/
def CheckpointsOk (st : Storage) : Prop :=
  ∀ c, st.sessionState = some c → c.processed = c.success + c.failed

/-- The run invariant: the live counters balance, and so do the persisted
ones. -/
def SessionInv (w : World) : Prop :=
  CountersOk w.state ∧ CheckpointsOk w.storage

/-- Writing a checkpoint from a balanced state keeps storage balanced. -/
theorem sessionInv_save (s : State) (st : Storage)
    (h1 : CountersOk s) (h2 : CheckpointsOk st) :
    SessionInv (saveSessionState { state := s, storage := st }) := by
  refine ⟨h1, ?_⟩
  intro c hc
  simp only [saveSessionState] at hc
  by_cases hl : s.orderIds.length > 0
  · rw [if_pos hl] at hc
    simp only [Option.some.injEq] at hc
    rw [← hc]
    exact h1
  · rw [if_neg hl] at hc
    exact h2 c hc

/-- Clearing the checkpoint keeps storage trivially balanced. -/
theorem sessionInv_clear (w : World) (h1 : CountersOk w.state) :
    SessionInv (clearSessionState w) := by
  refine ⟨h1, ?_⟩
  intro c hc
  simp [clearSessionState] at hc

/-- `saveToStorage` never touches the checkpoint. -/
theorem saveToStorage_ck (w : World) (h : CheckpointsOk w.storage) :
    CheckpointsOk (saveToStorage w).storage := by
  intro c hc
  rw [(saveToStorage_preserves w).2.2.2.2.2.2.2.2.2.2.2.2.2.2.2] at hc
  exact h c hc

/-- `handleOrderFailed` preserves the run invariant. -/
theorem handleOrderFailed_inv (w : World) (oid : String) (h : SessionInv w) :
    SessionInv (handleOrderFailed w oid).1 := by
  unfold handleOrderFailed
  dsimp only
  split_ifs with hr
  · exact sessionInv_save _ _ (by simpa [CountersOk] using h.1) h.2
  · refine sessionInv_save _ _ ?_ h.2
    have := h.1
    simp only [CountersOk] at this ⊢
    omega

/-- The skip loop preserves the run invariant. -/
theorem skipExistingLoop_inv (w : World) (effs : List Effect) (h : SessionInv w) :
    SessionInv (skipExistingLoop w effs).1 := by
  induction w, effs using skipExistingLoop.induct with
  | case1 w effs hcur hmem ih =>
    rw [skipExistingLoop, dif_pos hcur, if_pos hmem]
    exact ih (sessionInv_save _ _ (by simpa [CountersOk] using h.1) h.2)
  | case2 w effs hcur hmem =>
    rw [skipExistingLoop, dif_pos hcur, if_neg hmem]
    exact h
  | case3 w effs hcur =>
    rw [skipExistingLoop, dif_neg hcur]
    exact h

/-- `processNextOrder` preserves the run invariant. -/
theorem processNextOrder_inv (w : World) (navOk : Bool) (h : SessionInv w) :
    SessionInv (processNextOrder w navOk).1 := by
  have hr := skipExistingLoop_inv w [] h
  have hp := saveToStorage_preserves (skipExistingLoop w []).1
  unfold processNextOrder
  dsimp only
  split_ifs with h0 h1 h2 h3
  · exact h
  · refine ⟨?_, saveToStorage_ck _ hr.2⟩
    simp only [CountersOk]
    rw [hp.2.2.1, hp.2.2.2.1, hp.2.2.2.2.1]
    exact hr.1
  · refine sessionInv_clear _ ?_
    simp only [CountersOk]
    rw [hp.2.2.1, hp.2.2.2.1, hp.2.2.2.2.1]
    exact hr.1
  · exact hr
  · exact handleOrderFailed_inv _ _ hr

/-- The extraction handler preserves the run invariant in every branch. -/
theorem handleOrderDataExtracted_inv (w : World) (d : ExtractData) (rnd : RandStream)
    (h : SessionInv w) : SessionInv (handleOrderDataExtracted w d rnd).1 := by
  have hh := h.1
  simp only [CountersOk] at hh
  unfold handleOrderDataExtracted
  dsimp only
  split_ifs <;>
    first
      | exact h
      | (refine sessionInv_save _ _ ?_ (saveToStorage_ck _ h.2)
         simp only [CountersOk]
         try dsimp only
         rw [(saveToStorage_preserves _).2.2.1, (saveToStorage_preserves _).2.2.2.1,
           (saveToStorage_preserves _).2.2.2.2.1]
         try dsimp only
         omega)
      | (refine sessionInv_save _ _ ?_ h.2
         simp only [CountersOk]
         try dsimp only
         omega)

/-- The watchdog timeout callback preserves the run invariant. -/
theorem watchdogFire_inv (w : World) (oid : String) (reloadOk : Bool)
    (h : SessionInv w) : SessionInv (watchdogFire w oid reloadOk).1 := by
  have hh := h.1
  simp only [CountersOk] at hh
  unfold watchdogFire
  dsimp only
  by_cases hg : (!w.state.isRunning || w.state.shouldStop) = true
  · rw [if_pos hg]
    exact h
  · rw [if_neg hg]
    cases hc : w.state.currentTabId with
    | none =>
      simp only [hc]
      exact ⟨by simp only [CountersOk]; exact hh, h.2⟩
    | some t =>
      simp only [hc]
      by_cases hr : reloadOk = true
      · rw [if_pos hr]
        exact ⟨by simp only [CountersOk]; exact hh, h.2⟩
      · rw [if_neg hr]
        exact handleOrderFailed_inv _ _ ⟨by simp only [CountersOk]; exact hh, h.2⟩

/-- `processCurrentOrder` preserves the run invariant. -/
theorem processCurrentOrder_inv (w : World) (sendOk : Bool) (h : SessionInv w) :
    SessionInv (processCurrentOrder w sendOk).1 := by
  have hh := h.1
  simp only [CountersOk] at hh
  unfold processCurrentOrder
  dsimp only
  split_ifs <;>
    first
      | exact h
      | exact ⟨by simp only [CountersOk]; exact hh, h.2⟩
      | exact handleOrderFailed_inv _ _ ⟨by simp only [CountersOk]; exact hh, h.2⟩

/-- `retryCurrentOrder` preserves the run invariant. -/
theorem retryCurrentOrder_inv (w : World) (navOk : Bool) (h : SessionInv w) :
    SessionInv (retryCurrentOrder w navOk).1 := by
  unfold retryCurrentOrder
  dsimp only
  split_ifs <;> first | exact h | exact handleOrderFailed_inv _ _ h

/-- The collection handler preserves the run invariant. -/
theorem handleOrderIdsCollected_inv (w : World) (ids : List String)
    (amp : Option Nat) (navOk : Bool) (h : SessionInv w) :
    SessionInv (handleOrderIdsCollected w ids amp navOk).1 := by
  have hh := h.1
  simp only [CountersOk] at hh
  unfold handleOrderIdsCollected
  dsimp only
  by_cases hg : (!w.state.isRunning || w.state.shouldStop) = true
  · rw [if_pos hg]
    exact h
  · rw [if_neg hg]
    cases amp with
    | none =>
      dsimp only
      split_ifs <;>
        first
          | exact ⟨by simp only [CountersOk]; omega, h.2⟩
          | (refine sessionInv_clear _ ?_
             simp only [CountersOk]
             try dsimp only
             omega)
          | (refine processNextOrder_inv _ navOk ⟨?_, ?_⟩
             · simp only [CountersOk, saveSessionState]
               try dsimp only
               omega
             · exact (sessionInv_save _ _
                 (by simp only [CountersOk]; omega) h.2).2)
    | some a =>
      dsimp only
      split_ifs <;>
        first
          | exact ⟨by simp only [CountersOk]; omega, h.2⟩
          | (refine sessionInv_clear _ ?_
             simp only [CountersOk]
             try dsimp only
             omega)
          | (refine processNextOrder_inv _ navOk ⟨?_, ?_⟩
             · simp only [CountersOk, saveSessionState]
               try dsimp only
               omega
             · exact (sessionInv_save _ _
                 (by simp only [CountersOk]; omega) h.2).2)

/-- `handleStart` preserves the run invariant. -/
theorem handleStart_inv (w : World) (msg : StartMsg) (tabOk : Bool) (tabId : Nat)
    (h : SessionInv w) : SessionInv (handleStart w msg tabOk tabId).1 := by
  unfold handleStart
  dsimp only
  split_ifs
  · exact h
  · refine ⟨by simp [CountersOk, clearSessionState], ?_⟩
    intro c hc
    simp [clearSessionState] at hc
  · refine ⟨by simp [CountersOk, clearSessionState], ?_⟩
    intro c hc
    simp [clearSessionState] at hc

/-- `handleResume` preserves the run invariant (it rehydrates counters from
a checkpoint that storage already guarantees balanced). -/
theorem handleResume_inv (w : World) (msg : ResumeMsg) (tabOk : Bool) (tabId : Nat)
    (h : SessionInv w) : SessionInv (handleResume w msg tabOk tabId).1 := by
  unfold handleResume
  dsimp only
  by_cases hg : w.state.isRunning = true
  · rw [if_pos hg]
    exact h
  · rw [if_neg hg]
    cases hc : w.storage.sessionState with
    | none =>
      simp only [hc]
      exact h
    | some session =>
      simp only [hc]
      have hbal := h.2 session hc
      split_ifs with hlen htab
      · exact h
      · refine ⟨?_, h.2⟩
        simp only [CountersOk]
        try dsimp only
        rw [jsOrN_some_zero, jsOrN_some_zero, jsOrN_some_zero]
        exact hbal
      · refine ⟨?_, h.2⟩
        simp only [CountersOk]
        try dsimp only
        rw [jsOrN_some_zero, jsOrN_some_zero, jsOrN_some_zero]
        exact hbal

/-- `handlePause` preserves the run invariant. -/
theorem handlePause_inv (w : World) (h : SessionInv w) :
    SessionInv (handlePause w).1 := by
  unfold handlePause
  dsimp only
  exact sessionInv_save _ _ (by simpa [CountersOk] using h.1) h.2

/-- `handleResumePaused` preserves the run invariant. -/
theorem handleResumePaused_inv (w : World) (navOk : Bool) (h : SessionInv w) :
    SessionInv (handleResumePaused w navOk).1 := by
  unfold handleResumePaused
  dsimp only
  split_ifs
  · exact h
  · exact processNextOrder_inv _ navOk ⟨by simpa [CountersOk] using h.1, h.2⟩

/-- `handleStop` preserves the run invariant. -/
theorem handleStop_inv (w : World) (h : SessionInv w) :
    SessionInv (handleStop w).1 := by
  unfold handleStop
  dsimp only
  exact sessionInv_clear _ (by simpa [CountersOk] using h.1)

/-- Every event of the controller preserves the run invariant. -/
theorem applyEvent_inv (w : World) (e : Event) (h : SessionInv w) :
    SessionInv (applyEvent w e) := by
  cases e with
  | start msg tabOk tabId => exact handleStart_inv w msg tabOk tabId h
  | resume msg tabOk tabId => exact handleResume_inv w msg tabOk tabId h
  | pause => exact handlePause_inv w h
  | resumePaused navOk => exact handleResumePaused_inv w navOk h
  | stop => exact handleStop_inv w h
  | idsCollected ids amp navOk => exact handleOrderIdsCollected_inv w ids amp navOk h
  | extracted d rnd => exact handleOrderDataExtracted_inv w d rnd h
  | orderFailed oid => exact handleOrderFailed_inv w oid h
  | procNext navOk => exact processNextOrder_inv w navOk h
  | procCurrent sendOk => exact processCurrentOrder_inv w sendOk h
  | retryNow navOk => exact retryCurrentOrder_inv w navOk h
  | watchdog oid reloadOk => exact watchdogFire_inv w oid reloadOk h

/-- Event histories preserve the run invariant. -/
theorem applyEvents_inv (es : List Event) (w : World) (h : SessionInv w) :
    SessionInv (applyEvents w es) := by
  induction es generalizing w with
  | nil => exact h
  | cons e es ih => exact ih (applyEvent w e) (applyEvent_inv w e h)

/-- C7: along every event history of a run started from the initial world,
`processed = success + failed` holds at each quiescent point; and the
skip path increments `skipped` (in lockstep with the cursor, one per skipped
item) while leaving `processed` untouched. -/
theorem counters_invariant :
    (∀ es : List Event,
      (applyEvents initWorld es).state.processed =
        (applyEvents initWorld es).state.success +
          (applyEvents initWorld es).state.failed) ∧
    (∀ (w : World) (effs : List Effect),
      (skipExistingLoop w effs).1.state.processed = w.state.processed ∧
      (skipExistingLoop w effs).1.state.skipped + w.state.currentOrderIndex =
        w.state.skipped + (skipExistingLoop w effs).1.state.currentOrderIndex) := by
  constructor
  · intro es
    have hinit : SessionInv initWorld := by
      refine ⟨rfl, ?_⟩
      intro c hc
      simp [initWorld, initStorage] at hc
    exact (applyEvents_inv es initWorld hinit).1
  · intro w effs
    obtain ⟨_, _, h3, _, _, _, _, _, _, _, _, h12, _, _⟩ := skipExistingLoop_spec w effs
    exact ⟨h3, h12⟩

end OrderExport
